import Mathlib

/-!
Shallow embedding of the nessy NES emulator core (cpu.rs, bus.rs, ppu.rs,
mapper/nrom.rs) and proofs about it.

Modelling conventions:
* Machine integers (u8, u16) are represented as Nat.  Arithmetic that the
  source performs with wrapping semantics (wrapping_add, wrapping_sub, the
  plain += and -= operators of release builds, u8/u16 shifts) is written with an
  explicit % 256 or % 65536.
* Rust Vec<u8> is represented as ByteVec: an index function together with a
  length; indexing outside the length models the out-of-bounds panic.
* A Rust panic (panic!, todo!, unwrap failure, out-of-bounds indexing) is a
  failure: read paths return Option, write paths return an Outcome that also
  carries the state held at the moment of the panic, so that partially
  applied mutations stay observable.
* The Mapper trait object (Box<dyn Mapper>) has a single implementation,
  Nrom, which is used directly.
* Bus::read / Bus::write recurse once to fold the PPU mirror range
  0x2008..=0x3FFF down to addr & 0x2007; the folded address is at most
  0x2007, so the recursion depth is at most one.  The recursion is modelled
  with a fuel argument of 2 so that the definitions compute by rfl.
* The run_with_callback loop is modelled with an explicit fuel argument.
-/

set_option maxRecDepth 8192

namespace Nessy

/-- Outcome of a state-mutating operation: ok with the new state, or a panic
carrying the state as it was at the moment of the panic. -/
inductive Outcome (α : Type) where
  | ok (s : α)
  | panicked (s : α)
deriving Repr

/-- A Rust Vec<u8>: an index function plus a length.  Indexing at or past
size models the Rust out-of-bounds panic. -/
structure ByteVec where
  data : Nat → Nat
  size : Nat

/-- vec[i] as an Option (none models the out-of-bounds panic). -/
def ByteVec.get? (v : ByteVec) (i : Nat) : Option Nat :=
  if i < v.size then some (v.data i) else none

/-- vec[i] = x as an Option (none models the out-of-bounds panic). -/
def ByteVec.set? (v : ByteVec) (i x : Nat) : Option ByteVec :=
  if i < v.size then some { v with data := fun j => if j = i then x else v.data j }
  else none

/-- Nametable mirroring mode (rom.rs). -/
inductive Mirroring where
  | Vertical
  | Horizontal
  | FourScreen

/-- NROM board variant (mapper/nrom.rs). -/
inductive Variant where
  | Nrom128
  | Nrom256

/-- The NROM mapper: PRG ROM and CHR ROM plus the selected variant
(mapper/nrom.rs). -/
structure Nrom where
  variant : Variant
  pgr_rom : ByteVec
  chr_rom : ByteVec

/-- Nrom::new.  The variant is chosen by comparing the CHR ROM length with
8196, exactly as in the source. -/
def Nrom.new (pgr_rom chr_rom : ByteVec) : Nrom :=
  { variant := if chr_rom.size > 8196 then Variant.Nrom256 else Variant.Nrom128,
    pgr_rom := pgr_rom,
    chr_rom := chr_rom }

/-- Nrom::cpu_read: reads of 0x8000..=0xFFFF index the PRG ROM through the
variant mask; any other address panics (none). -/
def Nrom.cpu_read (m : Nrom) (adress : Nat) : Option Nat :=
  if 0x8000 ≤ adress ∧ adress ≤ 0xFFFF then
    let effective := match m.variant with
      | Variant.Nrom128 => adress &&& 0x3FFF
      | Variant.Nrom256 => adress &&& 0x7FFF
    m.pgr_rom.get? effective
  else none

/-- Nrom::cpu_write: writes of 0x8000..=0xFFFF store into the PRG ROM through
the variant mask; any other address panics (none). -/
def Nrom.cpu_write (m : Nrom) (adress value : Nat) : Option Nrom :=
  if 0x8000 ≤ adress ∧ adress ≤ 0xFFFF then
    let effective := match m.variant with
      | Variant.Nrom128 => adress &&& 0x3FFF
      | Variant.Nrom256 => adress &&& 0x7FFF
    match m.pgr_rom.set? effective value with
    | some p => some { m with pgr_rom := p }
    | none => none
  else none

/-- Nrom::ppu_read (the trait calls it read_chr_rom): CHR ROM reads for
0x0000..=0x1FFF. -/
def Nrom.ppu_read (m : Nrom) (adress : Nat) : Option Nat :=
  if adress ≤ 0x1FFF then m.chr_rom.get? adress else none

/-- Nrom::ppu_write: CHR ROM writes for 0x0000..=0x1FFF. -/
def Nrom.ppu_write (m : Nrom) (adress value : Nat) : Option Nrom :=
  if adress ≤ 0x1FFF then
    match m.chr_rom.set? adress value with
    | some c => some { m with chr_rom := c }
    | none => none
  else none

/-- A parsed cartridge (rom.rs): the mapper and the mirroring mode. -/
structure Rom where
  mapper : Nrom
  mirroring : Mirroring

/-- The PPU address register (ppu.rs). -/
structure AddrRegister where
  value : Nat
  is_hi : Bool

/-- AddrRegister::new. -/
def AddrRegister.new : AddrRegister :=
  { value := 0x00, is_hi := true }

/-- AddrRegister::write: latch one byte into the high or low half, mirror
down past 0x3FFF, and flip the latch. -/
def AddrRegister.write (r : AddrRegister) (value : Nat) : AddrRegister :=
  let v := if r.is_hi then (value <<< 8) ||| (r.value &&& 0x00FF)
           else (r.value &&& 0xFF00) ||| value
  let v := if v > 0x3FFF then v &&& 0x3FFF else v
  { value := v, is_hi := !r.is_hi }

/-- AddrRegister::increment: u16 wrapping add, then mirror down past
0x3FFF. -/
def AddrRegister.increment (r : AddrRegister) (value : Nat) : AddrRegister :=
  let v := (r.value + value) % 65536
  let v := if v > 0x3FFF then v &&& 0x3FFF else v
  { r with value := v }

/-- AddrRegister::get. -/
def AddrRegister.get (r : AddrRegister) : Nat :=
  r.value

/-- The PPU control register (ppu.rs). -/
structure ControlRegister where
  value : Nat

/-- ControlRegister::new. -/
def ControlRegister.new : ControlRegister :=
  { value := 0x00 }

/-- ControlRegister::contains. -/
def ControlRegister.contains (c : ControlRegister) (flag : Nat) : Bool :=
  (c.value &&& flag) != 0

/-- ControlRegister::vram_addr_increment: 1, or 32 when the VRAM_ADD_INCREMENT
bit (0b100) is set. -/
def ControlRegister.vram_addr_increment (c : ControlRegister) : Nat :=
  if !(c.contains 0b00000100) then 1 else 32

/-- ControlRegister::write. -/
def ControlRegister.write (_c : ControlRegister) (value : Nat) : ControlRegister :=
  { value := value }

/-- The PPU state (ppu.rs).  The fixed byte arrays are index functions;
bounds are checked at each indexing site. -/
structure Ppu where
  palette_table : Nat → Nat
  vram : Nat → Nat
  oam_data : Nat → Nat
  internal_data_buf : Nat
  addr : AddrRegister
  ctrl : ControlRegister
  mirroring : Mirroring

/-- Ppu::new. -/
def Ppu.new (mirroring : Mirroring) : Ppu :=
  { palette_table := fun _ => 0,
    vram := fun _ => 0,
    oam_data := fun _ => 0,
    internal_data_buf := 0x00,
    addr := AddrRegister.new,
    ctrl := ControlRegister.new,
    mirroring := mirroring }

/-- Ppu::increment_vram_addr. -/
def Ppu.increment_vram_addr (p : Ppu) : Ppu :=
  { p with addr := p.addr.increment p.ctrl.vram_addr_increment }

/-- Ppu::mirror_vram_addr: fold a nametable address down to an index into the
2 KiB VRAM.  Only called with addresses of at least 0x2000, so the Nat
subtraction matches the u16 subtraction of the source. -/
def Ppu.mirror_vram_addr (p : Ppu) (addr : Nat) : Nat :=
  let mirrored_vram := addr &&& 0x2FFF
  let vram_index := mirrored_vram - 0x2000
  let name_table := vram_index / 0x400
  match p.mirroring, name_table with
  | Mirroring.Vertical, 2 => vram_index - 0x800
  | Mirroring.Vertical, 3 => vram_index - 0x800
  | Mirroring.Horizontal, 2 => vram_index - 0x400
  | Mirroring.Horizontal, 1 => vram_index - 0x400
  | Mirroring.Horizontal, 3 => vram_index - 0x800
  | _, _ => vram_index

/-- Ppu::read (the PPU data register, CPU address 0x2007): returns the
buffered byte for CHR/VRAM reads, the palette byte directly for palette
reads, and increments the VRAM address.  The vram array holds 2048 bytes, so
a mirrored index of 2048 or more panics (none). -/
def Ppu.read (p : Ppu) (rom : Rom) : Option (Nat × Ppu) :=
  let addr := p.addr.get
  let p1 := p.increment_vram_addr
  if addr ≤ 0x1FFF then
    match rom.mapper.ppu_read addr with
    | some chr => some (p.internal_data_buf, { p1 with internal_data_buf := chr })
    | none => none
  else if addr ≤ 0x2FFF then
    let idx := p.mirror_vram_addr addr
    if idx < 2048 then
      some (p.internal_data_buf, { p1 with internal_data_buf := p.vram idx })
    else none
  else if addr ≤ 0x3EFF then none
  else if addr ≤ 0x3FFF then
    if addr - 0x3F00 < 32 then some (p.palette_table (addr - 0x3F00), p1)
    else none
  else none

/-- Ppu::write (the PPU data register, CPU address 0x2007).  CHR writes and
the 0x3000..=0x3EFF hole panic; nametable writes store into VRAM (when the
mirrored index is inside the 2048-byte array) and then hit the
todo!(Mirror addr) panic, so they never complete and never reach the address
increment; palette writes complete and increment the address. -/
def Ppu.write (p : Ppu) (value : Nat) : Outcome Ppu :=
  let addr := p.addr.get
  if addr ≤ 0x1FFF then Outcome.panicked p
  else if addr ≤ 0x2FFF then
    let idx := p.mirror_vram_addr addr
    if idx < 2048 then
      Outcome.panicked { p with vram := fun j => if j = idx then value else p.vram j }
    else Outcome.panicked p
  else if addr ≤ 0x3EFF then Outcome.panicked p
  else if addr ≤ 0x3FFF then
    if addr - 0x3F00 < 32 then
      Outcome.ok ({ p with palette_table := fun j => if j = addr - 0x3F00 then value else p.palette_table j }).increment_vram_addr
    else Outcome.panicked p
  else Outcome.panicked p

/-- The CPU bus (bus.rs): 2 KiB RAM, the cartridge, and the PPU. -/
structure Bus where
  cpu_ram : Nat → Nat
  rom : Rom
  ppu : Ppu

/-- Bus::new. -/
def Bus.new (rom : Rom) : Bus :=
  { cpu_ram := fun _ => 0, rom := rom, ppu := Ppu.new rom.mirroring }

/-- Bus::read, with a fuel argument standing in for the source's one-level
recursion on the PPU mirror range (see the header). -/
def Bus.read_rec : Nat → Bus → Nat → Option (Nat × Bus)
  | 0, _, _ => none
  | fuel + 1, bus, adress =>
    if adress ≤ 0x1FFF then
      some (bus.cpu_ram (adress &&& 0x07FF), bus)
    else if adress = 0x2000 ∨ adress = 0x2001 ∨ adress = 0x2003 ∨ adress = 0x2005 ∨
            adress = 0x2006 ∨ adress = 0x4014 then
      none
    else if adress = 0x2007 then
      match bus.ppu.read bus.rom with
      | some (v, p) => some (v, { bus with ppu := p })
      | none => none
    else if 0x2008 ≤ adress ∧ adress ≤ 0x3FFF then
      Bus.read_rec fuel bus (adress &&& 0x2007)
    else if 0x4020 ≤ adress ∧ adress ≤ 0xFFFF then
      match bus.rom.mapper.cpu_read adress with
      | some v => some (v, bus)
      | none => none
    else none

/-- Bus::read. -/
def Bus.read (bus : Bus) (adress : Nat) : Option (Nat × Bus) :=
  Bus.read_rec 2 bus adress

/-- Bus::read_u16: low byte first, little endian. -/
def Bus.read_u16 (bus : Bus) (adress : Nat) : Option (Nat × Bus) := do
  let (low, b1) ← bus.read adress
  let (high, b2) ← b1.read (adress + 1)
  some ((high <<< 8) ||| low, b2)

/-- Bus::write, with the same fuel treatment as Bus.read_rec. -/
def Bus.write_rec : Nat → Bus → Nat → Nat → Outcome Bus
  | 0, bus, _, _ => Outcome.panicked bus
  | fuel + 1, bus, adress, value =>
    if adress ≤ 0x1FFF then
      Outcome.ok { bus with
        cpu_ram := fun j => if j = (adress &&& 0x07FF) then value else bus.cpu_ram j }
    else if adress = 0x2000 then
      Outcome.ok { bus with ppu := { bus.ppu with ctrl := bus.ppu.ctrl.write value } }
    else if adress = 0x2006 then
      Outcome.ok { bus with ppu := { bus.ppu with addr := bus.ppu.addr.write value } }
    else if adress = 0x2007 then
      match bus.ppu.write value with
      | Outcome.ok p => Outcome.ok { bus with ppu := p }
      | Outcome.panicked p => Outcome.panicked { bus with ppu := p }
    else if 0x2008 ≤ adress ∧ adress ≤ 0x3FFF then
      Bus.write_rec fuel bus (adress &&& 0x2007) value
    else if 0x4020 ≤ adress ∧ adress ≤ 0xFFFF then
      match bus.rom.mapper.cpu_write adress value with
      | some m => Outcome.ok { bus with rom := { bus.rom with mapper := m } }
      | none => Outcome.panicked bus
    else Outcome.panicked bus

/-- Bus::write. -/
def Bus.write (bus : Bus) (adress value : Nat) : Outcome Bus :=
  Bus.write_rec 2 bus adress value

/-- Bus::write_u16: low byte first, little endian. -/
def Bus.write_u16 (bus : Bus) (adress value : Nat) : Outcome Bus :=
  match bus.write adress (value &&& 0x00FF) with
  | Outcome.ok b1 =>
    match b1.write (adress + 1) (value >>> 8) with
    | Outcome.ok b2 => Outcome.ok b2
    | Outcome.panicked b2 => Outcome.panicked b2
  | Outcome.panicked b1 => Outcome.panicked b1

/-- The CPU registers and flags (cpu.rs).  Each flag is a 0/1 value as in the
source. -/
structure Cpu where
  pc : Nat
  sp : Nat
  a : Nat
  x : Nat
  y : Nat
  n : Nat
  v : Nat
  b : Nat
  d : Nat
  i : Nat
  z : Nat
  c : Nat
  extra_cycle : Nat

/-- Cpu::new. -/
def Cpu.new : Cpu :=
  { pc := 0x00, sp := 0xFD,
    a := 0, x := 0, y := 0,
    n := 0, v := 0, b := 0, d := 0, i := 0, z := 0, c := 0,
    extra_cycle := 0 }

/-- The instruction enum (cpu.rs). -/
inductive Instruction where
  | Adc | And | Asl | Bcc | Bcs | Beq | Bit | Bmi | Bne | Bpl | Brk | Bvc | Bvs
  | Clc | Cld | Cli | Clv | Cmp | Cpx | Cpy | Dec | Dex | Dey | Eor | Inc | Inx
  | Iny | Jmp | Jsr | Lda | Ldx | Ldy | Lsr | Nop | Ora | Pha | Php | Pla | Plp
  | Rol | Ror | Rti | Rts | Sbc | Sec | Sed | Sei | Sta | Stx | Sty | Tax | Tay
  | Tsx | Txa | Txs | Tya
  | Dop | Top | Lax | Sax | Dcp | Isb | Slo | Sre | Rla | Rra

/-- The addressing-mode enum (cpu.rs). -/
inductive AddrMode where
  | Immediate
  | Accumulator
  | Absolute
  | XIndexedAbsolute
  | YIndexedAbsolute
  | AbsoluteIndirect
  | ZeroPage
  | XIndexedZeroPage
  | YIndexedZeroPage
  | XIndexedZeroPageIndirect
  | ZeroPageIndirectYIndexed
  | Relative
  | None

/-- Cpu::set_status: unpack a status byte into the flag fields (bit 5 is
dropped). -/
def Cpu.set_status (cpu : Cpu) (p : Nat) : Cpu :=
  { cpu with
    n := p >>> 7,
    v := (p &&& 0x40) >>> 6,
    b := (p &&& 0x10) >>> 4,
    d := (p &&& 0x08) >>> 3,
    i := (p &&& 0x04) >>> 2,
    z := (p &&& 0x02) >>> 1,
    c := p &&& 0x01 }

/-- Cpu::get_status: pack the flags, with bit 5 always set. -/
def Cpu.get_status (cpu : Cpu) : Nat :=
  (cpu.n <<< 7) + (cpu.v <<< 6) + (1 <<< 5) + (cpu.b <<< 4) + (cpu.d <<< 3) +
    (cpu.i <<< 2) + (cpu.z <<< 1) + cpu.c

/-- Cpu::is_crossing: page cross test on the high bytes. -/
def Cpu.is_crossing (origin next : Nat) : Bool :=
  (origin &&& 0xFF00) != (next &&& 0xFF00)

/-- Cpu::fetch: read the byte at pc and advance pc. -/
def Cpu.fetch (cpu : Cpu) (bus : Bus) : Option (Nat × Cpu × Bus) := do
  let (value, b1) ← bus.read cpu.pc
  some (value, { cpu with pc := (cpu.pc + 1) % 65536 }, b1)

/-- Cpu::fetch_relative: fetch a signed offset byte and add it to the advanced
pc; the u16::try_from unwrap panics when the sum leaves the u16 range. -/
def Cpu.fetch_relative (cpu : Cpu) (bus : Bus) : Option (Nat × Cpu × Bus) := do
  let (value, c1, b1) ← cpu.fetch bus
  let offset : Int := if value >>> 7 ≠ 0 then (value : Int) - 256 else (value : Int)
  let s : Int := (c1.pc : Int) + offset
  if 0 ≤ s ∧ s < 65536 then some (s.toNat, c1, b1) else none

/-- Cpu::fetch_absolute_adress: two fetches, little endian. -/
def Cpu.fetch_absolute_adress (cpu : Cpu) (bus : Bus) : Option (Nat × Cpu × Bus) := do
  let (lo, c1, b1) ← cpu.fetch bus
  let (hi, c2, b2) ← c1.fetch b1
  some (lo + (hi <<< 8), c2, b2)

/-- Cpu::fetch_absolute_indirect_adress: read the 16-bit pointer, then read
the target bytes; the high pointer byte is fetched without carrying the
increment into the page. -/
def Cpu.fetch_absolute_indirect_adress (cpu : Cpu) (bus : Bus) : Option (Nat × Cpu × Bus) := do
  let (low_indirect, c1, b1) ← cpu.fetch_absolute_adress bus
  let high_indirect := (low_indirect &&& 0xFF00) + ((low_indirect + 1) &&& 0x00FF)
  let (lo, b2) ← b1.read low_indirect
  let (hi, b3) ← b2.read high_indirect
  some (lo + (hi <<< 8), c1, b3)

/-- Cpu::fetch_x_indexed_absolute_adress. -/
def Cpu.fetch_x_indexed_absolute_adress (cpu : Cpu) (bus : Bus) : Option (Nat × Cpu × Bus) := do
  let (absolute, c1, b1) ← cpu.fetch_absolute_adress bus
  let adress := (absolute + c1.x) % 65536
  some (adress, { c1 with extra_cycle := if Cpu.is_crossing absolute adress then 1 else 0 }, b1)

/-- Cpu::fetch_y_indexed_absolute_adress. -/
def Cpu.fetch_y_indexed_absolute_adress (cpu : Cpu) (bus : Bus) : Option (Nat × Cpu × Bus) := do
  let (absolute, c1, b1) ← cpu.fetch_absolute_adress bus
  let adress := (absolute + c1.y) % 65536
  some (adress, { c1 with extra_cycle := if Cpu.is_crossing absolute adress then 1 else 0 }, b1)

/-- Cpu::fetch_zero_page_adress. -/
def Cpu.fetch_zero_page_adress (cpu : Cpu) (bus : Bus) : Option (Nat × Cpu × Bus) :=
  cpu.fetch bus

/-- Cpu::fetch_x_indexed_zero_page_adress: u8 wrapping add of x. -/
def Cpu.fetch_x_indexed_zero_page_adress (cpu : Cpu) (bus : Bus) : Option (Nat × Cpu × Bus) := do
  let (value, c1, b1) ← cpu.fetch bus
  some ((value + c1.x) % 256, c1, b1)

/-- Cpu::fetch_y_indexed_zero_page_adress: u8 wrapping add of y. -/
def Cpu.fetch_y_indexed_zero_page_adress (cpu : Cpu) (bus : Bus) : Option (Nat × Cpu × Bus) := do
  let (value, c1, b1) ← cpu.fetch bus
  some ((value + c1.y) % 256, c1, b1)

/-- Cpu::fetch_x_indexed_zero_page_indirect_adress: the pointer stays on the
zero page; the source reads the high byte before the low byte. -/
def Cpu.fetch_x_indexed_zero_page_indirect_adress (cpu : Cpu) (bus : Bus) :
    Option (Nat × Cpu × Bus) := do
  let (value, c1, b1) ← cpu.fetch bus
  let indirect := (value + c1.x) % 256
  let (hi, b2) ← b1.read ((indirect + 1) % 256)
  let (lo, b3) ← b2.read indirect
  some ((hi <<< 8) ||| lo, c1, b3)

/-- Cpu::fetch_zero_page_indirect_y_indexed_adress. -/
def Cpu.fetch_zero_page_indirect_y_indexed_adress (cpu : Cpu) (bus : Bus) :
    Option (Nat × Cpu × Bus) := do
  let (pointer, c1, b1) ← cpu.fetch bus
  let (lo, b2) ← b1.read pointer
  let (hi, b3) ← b2.read ((pointer + 1) % 256)
  let indirect := lo ||| (hi <<< 8)
  let adress := (indirect + c1.y) % 65536
  some (adress, { c1 with extra_cycle := if Cpu.is_crossing indirect adress then 1 else 0 }, b3)

set_option maxHeartbeats 2000000 in
/-- Cpu::decode: the dense opcode table, returning (instruction, addressing
mode, byte length, base cycles); an opcode outside the table panics (none).
The source takes self mutably but never uses it. -/
def Cpu.decode (opcode : Nat) : Option (Instruction × AddrMode × Nat × Nat) :=
  match opcode with
  | 0x69 => some (Instruction.Adc, AddrMode.Immediate, 2, 2)
  | 0x6D => some (Instruction.Adc, AddrMode.Absolute, 3, 4)
  | 0x7D => some (Instruction.Adc, AddrMode.XIndexedAbsolute, 3, 4)
  | 0x79 => some (Instruction.Adc, AddrMode.YIndexedAbsolute, 3, 4)
  | 0x65 => some (Instruction.Adc, AddrMode.ZeroPage, 2, 3)
  | 0x75 => some (Instruction.Adc, AddrMode.XIndexedZeroPage, 2, 4)
  | 0x61 => some (Instruction.Adc, AddrMode.XIndexedZeroPageIndirect, 2, 6)
  | 0x71 => some (Instruction.Adc, AddrMode.ZeroPageIndirectYIndexed, 2, 5)
  | 0x29 => some (Instruction.And, AddrMode.Immediate, 2, 2)
  | 0x2D => some (Instruction.And, AddrMode.Absolute, 3, 4)
  | 0x3D => some (Instruction.And, AddrMode.XIndexedAbsolute, 3, 4)
  | 0x39 => some (Instruction.And, AddrMode.YIndexedAbsolute, 3, 4)
  | 0x25 => some (Instruction.And, AddrMode.ZeroPage, 2, 3)
  | 0x35 => some (Instruction.And, AddrMode.XIndexedZeroPage, 2, 4)
  | 0x21 => some (Instruction.And, AddrMode.XIndexedZeroPageIndirect, 2, 6)
  | 0x31 => some (Instruction.And, AddrMode.ZeroPageIndirectYIndexed, 2, 5)
  | 0x0A => some (Instruction.Asl, AddrMode.Accumulator, 1, 2)
  | 0x0E => some (Instruction.Asl, AddrMode.Absolute, 3, 6)
  | 0x1E => some (Instruction.Asl, AddrMode.XIndexedAbsolute, 3, 7)
  | 0x06 => some (Instruction.Asl, AddrMode.ZeroPage, 2, 5)
  | 0x16 => some (Instruction.Asl, AddrMode.XIndexedZeroPage, 2, 6)
  | 0x90 => some (Instruction.Bcc, AddrMode.Relative, 2, 2)
  | 0xB0 => some (Instruction.Bcs, AddrMode.Relative, 2, 2)
  | 0xF0 => some (Instruction.Beq, AddrMode.Relative, 2, 2)
  | 0x2C => some (Instruction.Bit, AddrMode.Absolute, 3, 4)
  | 0x24 => some (Instruction.Bit, AddrMode.ZeroPage, 2, 3)
  | 0x30 => some (Instruction.Bmi, AddrMode.Relative, 2, 2)
  | 0xD0 => some (Instruction.Bne, AddrMode.Relative, 2, 2)
  | 0x10 => some (Instruction.Bpl, AddrMode.Relative, 2, 2)
  | 0x00 => some (Instruction.Brk, AddrMode.None, 1, 7)
  | 0x50 => some (Instruction.Bvc, AddrMode.Relative, 2, 2)
  | 0x70 => some (Instruction.Bvs, AddrMode.Relative, 2, 2)
  | 0x18 => some (Instruction.Clc, AddrMode.None, 1, 2)
  | 0xD8 => some (Instruction.Cld, AddrMode.None, 1, 2)
  | 0x58 => some (Instruction.Cli, AddrMode.None, 1, 2)
  | 0xB8 => some (Instruction.Clv, AddrMode.None, 1, 2)
  | 0xC9 => some (Instruction.Cmp, AddrMode.Immediate, 2, 2)
  | 0xCD => some (Instruction.Cmp, AddrMode.Absolute, 3, 4)
  | 0xDD => some (Instruction.Cmp, AddrMode.XIndexedAbsolute, 3, 4)
  | 0xD9 => some (Instruction.Cmp, AddrMode.YIndexedAbsolute, 3, 4)
  | 0xC5 => some (Instruction.Cmp, AddrMode.ZeroPage, 2, 3)
  | 0xD5 => some (Instruction.Cmp, AddrMode.XIndexedZeroPage, 2, 4)
  | 0xC1 => some (Instruction.Cmp, AddrMode.XIndexedZeroPageIndirect, 2, 6)
  | 0xD1 => some (Instruction.Cmp, AddrMode.ZeroPageIndirectYIndexed, 2, 5)
  | 0xE0 => some (Instruction.Cpx, AddrMode.Immediate, 2, 2)
  | 0xEC => some (Instruction.Cpx, AddrMode.Absolute, 3, 4)
  | 0xE4 => some (Instruction.Cpx, AddrMode.ZeroPage, 2, 3)
  | 0xC0 => some (Instruction.Cpy, AddrMode.Immediate, 2, 2)
  | 0xCC => some (Instruction.Cpy, AddrMode.Absolute, 3, 4)
  | 0xC4 => some (Instruction.Cpy, AddrMode.ZeroPage, 2, 3)
  | 0xCE => some (Instruction.Dec, AddrMode.Absolute, 3, 6)
  | 0xDE => some (Instruction.Dec, AddrMode.XIndexedAbsolute, 3, 7)
  | 0xC6 => some (Instruction.Dec, AddrMode.ZeroPage, 2, 5)
  | 0xD6 => some (Instruction.Dec, AddrMode.XIndexedZeroPage, 2, 6)
  | 0xCA => some (Instruction.Dex, AddrMode.None, 1, 2)
  | 0x88 => some (Instruction.Dey, AddrMode.None, 1, 2)
  | 0x49 => some (Instruction.Eor, AddrMode.Immediate, 2, 2)
  | 0x4D => some (Instruction.Eor, AddrMode.Absolute, 3, 4)
  | 0x5D => some (Instruction.Eor, AddrMode.XIndexedAbsolute, 3, 4)
  | 0x59 => some (Instruction.Eor, AddrMode.YIndexedAbsolute, 3, 4)
  | 0x45 => some (Instruction.Eor, AddrMode.ZeroPage, 2, 3)
  | 0x55 => some (Instruction.Eor, AddrMode.XIndexedZeroPage, 2, 4)
  | 0x41 => some (Instruction.Eor, AddrMode.XIndexedZeroPageIndirect, 2, 6)
  | 0x51 => some (Instruction.Eor, AddrMode.ZeroPageIndirectYIndexed, 2, 5)
  | 0xEE => some (Instruction.Inc, AddrMode.Absolute, 3, 6)
  | 0xFE => some (Instruction.Inc, AddrMode.XIndexedAbsolute, 3, 7)
  | 0xE6 => some (Instruction.Inc, AddrMode.ZeroPage, 2, 5)
  | 0xF6 => some (Instruction.Inc, AddrMode.XIndexedZeroPage, 2, 6)
  | 0xE8 => some (Instruction.Inx, AddrMode.None, 1, 2)
  | 0xC8 => some (Instruction.Iny, AddrMode.None, 1, 2)
  | 0x4C => some (Instruction.Jmp, AddrMode.Absolute, 3, 3)
  | 0x6C => some (Instruction.Jmp, AddrMode.AbsoluteIndirect, 3, 5)
  | 0x20 => some (Instruction.Jsr, AddrMode.Absolute, 3, 6)
  | 0xA9 => some (Instruction.Lda, AddrMode.Immediate, 2, 2)
  | 0xAD => some (Instruction.Lda, AddrMode.Absolute, 3, 4)
  | 0xBD => some (Instruction.Lda, AddrMode.XIndexedAbsolute, 3, 4)
  | 0xB9 => some (Instruction.Lda, AddrMode.YIndexedAbsolute, 3, 4)
  | 0xA5 => some (Instruction.Lda, AddrMode.ZeroPage, 2, 3)
  | 0xB5 => some (Instruction.Lda, AddrMode.XIndexedZeroPage, 2, 4)
  | 0xA1 => some (Instruction.Lda, AddrMode.XIndexedZeroPageIndirect, 2, 6)
  | 0xB1 => some (Instruction.Lda, AddrMode.ZeroPageIndirectYIndexed, 2, 5)
  | 0xA2 => some (Instruction.Ldx, AddrMode.Immediate, 2, 2)
  | 0xAE => some (Instruction.Ldx, AddrMode.Absolute, 3, 4)
  | 0xBE => some (Instruction.Ldx, AddrMode.YIndexedAbsolute, 3, 4)
  | 0xA6 => some (Instruction.Ldx, AddrMode.ZeroPage, 2, 3)
  | 0xB6 => some (Instruction.Ldx, AddrMode.YIndexedZeroPage, 2, 4)
  | 0xA0 => some (Instruction.Ldy, AddrMode.Immediate, 2, 2)
  | 0xAC => some (Instruction.Ldy, AddrMode.Absolute, 3, 4)
  | 0xBC => some (Instruction.Ldy, AddrMode.XIndexedAbsolute, 3, 4)
  | 0xA4 => some (Instruction.Ldy, AddrMode.ZeroPage, 2, 3)
  | 0xB4 => some (Instruction.Ldy, AddrMode.XIndexedZeroPage, 2, 4)
  | 0x4A => some (Instruction.Lsr, AddrMode.Accumulator, 1, 2)
  | 0x4E => some (Instruction.Lsr, AddrMode.Absolute, 3, 6)
  | 0x5E => some (Instruction.Lsr, AddrMode.XIndexedAbsolute, 3, 7)
  | 0x46 => some (Instruction.Lsr, AddrMode.ZeroPage, 2, 5)
  | 0x56 => some (Instruction.Lsr, AddrMode.XIndexedZeroPage, 2, 6)
  | 0xEA => some (Instruction.Nop, AddrMode.None, 1, 2)
  | 0x09 => some (Instruction.Ora, AddrMode.Immediate, 2, 2)
  | 0x0D => some (Instruction.Ora, AddrMode.Absolute, 3, 4)
  | 0x1D => some (Instruction.Ora, AddrMode.XIndexedAbsolute, 3, 4)
  | 0x19 => some (Instruction.Ora, AddrMode.YIndexedAbsolute, 3, 4)
  | 0x05 => some (Instruction.Ora, AddrMode.ZeroPage, 2, 3)
  | 0x15 => some (Instruction.Ora, AddrMode.XIndexedZeroPage, 2, 4)
  | 0x01 => some (Instruction.Ora, AddrMode.XIndexedZeroPageIndirect, 2, 6)
  | 0x11 => some (Instruction.Ora, AddrMode.ZeroPageIndirectYIndexed, 2, 5)
  | 0x48 => some (Instruction.Pha, AddrMode.None, 1, 3)
  | 0x08 => some (Instruction.Php, AddrMode.None, 1, 3)
  | 0x68 => some (Instruction.Pla, AddrMode.None, 1, 4)
  | 0x28 => some (Instruction.Plp, AddrMode.None, 1, 4)
  | 0x2A => some (Instruction.Rol, AddrMode.Accumulator, 1, 2)
  | 0x2E => some (Instruction.Rol, AddrMode.Absolute, 3, 6)
  | 0x3E => some (Instruction.Rol, AddrMode.XIndexedAbsolute, 3, 7)
  | 0x26 => some (Instruction.Rol, AddrMode.ZeroPage, 2, 5)
  | 0x36 => some (Instruction.Rol, AddrMode.XIndexedZeroPage, 2, 6)
  | 0x6A => some (Instruction.Ror, AddrMode.Accumulator, 1, 2)
  | 0x6E => some (Instruction.Ror, AddrMode.Absolute, 3, 6)
  | 0x7E => some (Instruction.Ror, AddrMode.XIndexedAbsolute, 3, 7)
  | 0x66 => some (Instruction.Ror, AddrMode.ZeroPage, 2, 5)
  | 0x76 => some (Instruction.Ror, AddrMode.XIndexedZeroPage, 2, 6)
  | 0x40 => some (Instruction.Rti, AddrMode.None, 1, 6)
  | 0x60 => some (Instruction.Rts, AddrMode.None, 1, 6)
  | 0xE9 => some (Instruction.Sbc, AddrMode.Immediate, 2, 2)
  | 0xED => some (Instruction.Sbc, AddrMode.Absolute, 3, 4)
  | 0xFD => some (Instruction.Sbc, AddrMode.XIndexedAbsolute, 3, 4)
  | 0xF9 => some (Instruction.Sbc, AddrMode.YIndexedAbsolute, 3, 4)
  | 0xE5 => some (Instruction.Sbc, AddrMode.ZeroPage, 2, 3)
  | 0xF5 => some (Instruction.Sbc, AddrMode.XIndexedZeroPage, 2, 4)
  | 0xE1 => some (Instruction.Sbc, AddrMode.XIndexedZeroPageIndirect, 2, 6)
  | 0xF1 => some (Instruction.Sbc, AddrMode.ZeroPageIndirectYIndexed, 2, 5)
  | 0x38 => some (Instruction.Sec, AddrMode.None, 1, 2)
  | 0xF8 => some (Instruction.Sed, AddrMode.None, 1, 2)
  | 0x78 => some (Instruction.Sei, AddrMode.None, 1, 2)
  | 0x8D => some (Instruction.Sta, AddrMode.Absolute, 3, 4)
  | 0x9D => some (Instruction.Sta, AddrMode.XIndexedAbsolute, 3, 5)
  | 0x99 => some (Instruction.Sta, AddrMode.YIndexedAbsolute, 3, 5)
  | 0x85 => some (Instruction.Sta, AddrMode.ZeroPage, 2, 3)
  | 0x95 => some (Instruction.Sta, AddrMode.XIndexedZeroPage, 2, 4)
  | 0x81 => some (Instruction.Sta, AddrMode.XIndexedZeroPageIndirect, 2, 6)
  | 0x91 => some (Instruction.Sta, AddrMode.ZeroPageIndirectYIndexed, 2, 6)
  | 0x8E => some (Instruction.Stx, AddrMode.Absolute, 3, 4)
  | 0x86 => some (Instruction.Stx, AddrMode.ZeroPage, 2, 3)
  | 0x96 => some (Instruction.Stx, AddrMode.YIndexedZeroPage, 2, 4)
  | 0x8C => some (Instruction.Sty, AddrMode.Absolute, 3, 4)
  | 0x84 => some (Instruction.Sty, AddrMode.ZeroPage, 2, 3)
  | 0x94 => some (Instruction.Sty, AddrMode.XIndexedZeroPage, 2, 4)
  | 0xAA => some (Instruction.Tax, AddrMode.None, 1, 2)
  | 0xA8 => some (Instruction.Tay, AddrMode.None, 1, 2)
  | 0xBA => some (Instruction.Tsx, AddrMode.None, 1, 2)
  | 0x8A => some (Instruction.Txa, AddrMode.None, 1, 2)
  | 0x9A => some (Instruction.Txs, AddrMode.None, 1, 2)
  | 0x98 => some (Instruction.Tya, AddrMode.None, 1, 2)
  | 0x04 => some (Instruction.Dop, AddrMode.ZeroPage, 2, 3)
  | 0x14 => some (Instruction.Dop, AddrMode.XIndexedZeroPage, 2, 4)
  | 0x34 => some (Instruction.Dop, AddrMode.XIndexedZeroPage, 2, 4)
  | 0x44 => some (Instruction.Dop, AddrMode.ZeroPage, 2, 3)
  | 0x54 => some (Instruction.Dop, AddrMode.XIndexedZeroPage, 2, 4)
  | 0x64 => some (Instruction.Dop, AddrMode.ZeroPage, 2, 3)
  | 0x74 => some (Instruction.Dop, AddrMode.XIndexedZeroPage, 2, 4)
  | 0x80 => some (Instruction.Dop, AddrMode.Immediate, 2, 2)
  | 0x82 => some (Instruction.Dop, AddrMode.Immediate, 2, 2)
  | 0x89 => some (Instruction.Dop, AddrMode.Immediate, 2, 2)
  | 0xC2 => some (Instruction.Dop, AddrMode.Immediate, 2, 2)
  | 0xD4 => some (Instruction.Dop, AddrMode.XIndexedZeroPage, 2, 4)
  | 0xE2 => some (Instruction.Dop, AddrMode.Immediate, 2, 2)
  | 0xF4 => some (Instruction.Dop, AddrMode.XIndexedZeroPage, 2, 4)
  | 0x0C => some (Instruction.Top, AddrMode.Absolute, 3, 4)
  | 0x1C => some (Instruction.Top, AddrMode.XIndexedAbsolute, 3, 4)
  | 0x3C => some (Instruction.Top, AddrMode.XIndexedAbsolute, 3, 4)
  | 0x5C => some (Instruction.Top, AddrMode.XIndexedAbsolute, 3, 4)
  | 0x7C => some (Instruction.Top, AddrMode.XIndexedAbsolute, 3, 4)
  | 0xDC => some (Instruction.Top, AddrMode.XIndexedAbsolute, 3, 4)
  | 0xFC => some (Instruction.Top, AddrMode.XIndexedAbsolute, 3, 4)
  | 0x1A => some (Instruction.Nop, AddrMode.None, 1, 2)
  | 0x3A => some (Instruction.Nop, AddrMode.None, 1, 2)
  | 0x5A => some (Instruction.Nop, AddrMode.None, 1, 2)
  | 0x7A => some (Instruction.Nop, AddrMode.None, 1, 2)
  | 0xDA => some (Instruction.Nop, AddrMode.None, 1, 2)
  | 0xFA => some (Instruction.Nop, AddrMode.None, 1, 2)
  | 0xA7 => some (Instruction.Lax, AddrMode.ZeroPage, 2, 3)
  | 0xB7 => some (Instruction.Lax, AddrMode.YIndexedZeroPage, 2, 4)
  | 0xAF => some (Instruction.Lax, AddrMode.Absolute, 3, 4)
  | 0xBF => some (Instruction.Lax, AddrMode.YIndexedAbsolute, 3, 4)
  | 0xA3 => some (Instruction.Lax, AddrMode.XIndexedZeroPageIndirect, 2, 6)
  | 0xB3 => some (Instruction.Lax, AddrMode.ZeroPageIndirectYIndexed, 2, 5)
  | 0x87 => some (Instruction.Sax, AddrMode.ZeroPage, 2, 3)
  | 0x97 => some (Instruction.Sax, AddrMode.YIndexedZeroPage, 2, 4)
  | 0x83 => some (Instruction.Sax, AddrMode.XIndexedZeroPageIndirect, 2, 6)
  | 0x8F => some (Instruction.Sax, AddrMode.Absolute, 3, 4)
  | 0xEB => some (Instruction.Sbc, AddrMode.Immediate, 2, 2)
  | 0xC7 => some (Instruction.Dcp, AddrMode.ZeroPage, 2, 5)
  | 0xD7 => some (Instruction.Dcp, AddrMode.XIndexedZeroPage, 2, 6)
  | 0xCF => some (Instruction.Dcp, AddrMode.Absolute, 3, 6)
  | 0xDF => some (Instruction.Dcp, AddrMode.XIndexedAbsolute, 3, 7)
  | 0xDB => some (Instruction.Dcp, AddrMode.YIndexedAbsolute, 3, 7)
  | 0xC3 => some (Instruction.Dcp, AddrMode.XIndexedZeroPageIndirect, 2, 8)
  | 0xD3 => some (Instruction.Dcp, AddrMode.ZeroPageIndirectYIndexed, 2, 8)
  | 0xE7 => some (Instruction.Isb, AddrMode.ZeroPage, 2, 5)
  | 0xF7 => some (Instruction.Isb, AddrMode.XIndexedZeroPage, 2, 6)
  | 0xEF => some (Instruction.Isb, AddrMode.Absolute, 3, 6)
  | 0xFF => some (Instruction.Isb, AddrMode.XIndexedAbsolute, 3, 7)
  | 0xFB => some (Instruction.Isb, AddrMode.YIndexedAbsolute, 3, 7)
  | 0xE3 => some (Instruction.Isb, AddrMode.XIndexedZeroPageIndirect, 2, 8)
  | 0xF3 => some (Instruction.Isb, AddrMode.ZeroPageIndirectYIndexed, 2, 8)
  | 0x07 => some (Instruction.Slo, AddrMode.ZeroPage, 2, 5)
  | 0x17 => some (Instruction.Slo, AddrMode.XIndexedZeroPage, 2, 6)
  | 0x0F => some (Instruction.Slo, AddrMode.Absolute, 3, 6)
  | 0x1F => some (Instruction.Slo, AddrMode.XIndexedAbsolute, 3, 7)
  | 0x1B => some (Instruction.Slo, AddrMode.YIndexedAbsolute, 3, 7)
  | 0x03 => some (Instruction.Slo, AddrMode.XIndexedZeroPageIndirect, 2, 8)
  | 0x13 => some (Instruction.Slo, AddrMode.ZeroPageIndirectYIndexed, 2, 8)
  | 0x47 => some (Instruction.Sre, AddrMode.ZeroPage, 2, 5)
  | 0x57 => some (Instruction.Sre, AddrMode.XIndexedZeroPage, 2, 6)
  | 0x4F => some (Instruction.Sre, AddrMode.Absolute, 3, 6)
  | 0x5F => some (Instruction.Sre, AddrMode.XIndexedAbsolute, 3, 7)
  | 0x5B => some (Instruction.Sre, AddrMode.YIndexedAbsolute, 3, 7)
  | 0x43 => some (Instruction.Sre, AddrMode.XIndexedZeroPageIndirect, 2, 8)
  | 0x53 => some (Instruction.Sre, AddrMode.ZeroPageIndirectYIndexed, 2, 8)
  | 0x27 => some (Instruction.Rla, AddrMode.ZeroPage, 2, 5)
  | 0x37 => some (Instruction.Rla, AddrMode.XIndexedZeroPage, 2, 6)
  | 0x2F => some (Instruction.Rla, AddrMode.Absolute, 3, 6)
  | 0x3F => some (Instruction.Rla, AddrMode.XIndexedAbsolute, 3, 7)
  | 0x3B => some (Instruction.Rla, AddrMode.YIndexedAbsolute, 3, 7)
  | 0x23 => some (Instruction.Rla, AddrMode.XIndexedZeroPageIndirect, 2, 8)
  | 0x33 => some (Instruction.Rla, AddrMode.ZeroPageIndirectYIndexed, 2, 8)
  | 0x67 => some (Instruction.Rra, AddrMode.ZeroPage, 2, 5)
  | 0x77 => some (Instruction.Rra, AddrMode.XIndexedZeroPage, 2, 6)
  | 0x6F => some (Instruction.Rra, AddrMode.Absolute, 3, 6)
  | 0x7F => some (Instruction.Rra, AddrMode.XIndexedAbsolute, 3, 7)
  | 0x7B => some (Instruction.Rra, AddrMode.YIndexedAbsolute, 3, 7)
  | 0x63 => some (Instruction.Rra, AddrMode.XIndexedZeroPageIndirect, 2, 8)
  | 0x73 => some (Instruction.Rra, AddrMode.ZeroPageIndirectYIndexed, 2, 8)
  | _ => none

/-- Cpu::get_op_adress: compute the operand address for the addressing mode;
Accumulator and None panic (none). -/
def Cpu.get_op_adress (cpu : Cpu) (bus : Bus) (addr_mode : AddrMode) :
    Option (Nat × Cpu × Bus) :=
  match addr_mode with
  | AddrMode.Immediate => some (cpu.pc, { cpu with pc := (cpu.pc + 1) % 65536 }, bus)
  | AddrMode.Absolute => cpu.fetch_absolute_adress bus
  | AddrMode.XIndexedAbsolute => cpu.fetch_x_indexed_absolute_adress bus
  | AddrMode.YIndexedAbsolute => cpu.fetch_y_indexed_absolute_adress bus
  | AddrMode.AbsoluteIndirect => cpu.fetch_absolute_indirect_adress bus
  | AddrMode.ZeroPage => cpu.fetch_zero_page_adress bus
  | AddrMode.XIndexedZeroPage => cpu.fetch_x_indexed_zero_page_adress bus
  | AddrMode.YIndexedZeroPage => cpu.fetch_y_indexed_zero_page_adress bus
  | AddrMode.XIndexedZeroPageIndirect => cpu.fetch_x_indexed_zero_page_indirect_adress bus
  | AddrMode.ZeroPageIndirectYIndexed => cpu.fetch_zero_page_indirect_y_indexed_adress bus
  | AddrMode.Relative => cpu.fetch_relative bus
  | _ => none

/-- Bus::write viewed from the CPU: a panicking write aborts the
instruction (none). -/
def Bus.write? (bus : Bus) (adress value : Nat) : Option Bus :=
  match bus.write adress value with
  | Outcome.ok b => some b
  | Outcome.panicked _ => none

/-- Cpu::stack_push: write at 0x0100 + sp, then decrement sp (u8 wrap). -/
def Cpu.stack_push (cpu : Cpu) (bus : Bus) (value : Nat) : Option (Cpu × Bus) := do
  let b1 ← bus.write? (0x0100 + cpu.sp) value
  some ({ cpu with sp := (cpu.sp + 255) % 256 }, b1)

/-- Cpu::stack_pop: increment sp (u8 wrap), then read at 0x0100 + sp. -/
def Cpu.stack_pop (cpu : Cpu) (bus : Bus) : Option (Nat × Cpu × Bus) := do
  let sp := (cpu.sp + 1) % 256
  let (value, b1) ← bus.read (0x0100 + sp)
  some (value, { cpu with sp := sp }, b1)

/-- Cpu::add_to_accumulator: the common ADC core (also used by SBC, RRA,
ISB).  The two overflowing_add calls become explicit mod-256 sums with
overflow tests. -/
def Cpu.add_to_accumulator (cpu : Cpu) (value : Nat) : Cpu :=
  let temp := (cpu.a + value) % 256
  let result := (temp + cpu.c) % 256
  { cpu with
    c := if 256 ≤ cpu.a + value ∨ 256 ≤ temp + cpu.c then 1 else 0,
    v := if ((cpu.a ^^^ value) &&& 0x80 = 0) ∧ ¬((cpu.a ^^^ result) &&& 0x80 = 0)
         then 1 else 0,
    n := result >>> 7,
    z := if result = 0 then 1 else 0,
    a := result }

/-- Cpu::sub_to_accumulator: add the byte obtained from the source's
(value as i8).wrapping_neg().wrapping_sub(1) as u8 round trip, written as
the corresponding two's-complement operations mod 256. -/
def Cpu.sub_to_accumulator (cpu : Cpu) (value : Nat) : Cpu :=
  cpu.add_to_accumulator (((256 - value % 256) % 256 + 255) % 256)

/-- Cpu::apply_branch: fetch the relative target, and when the condition
holds pay the taken-branch cycle (plus one on page cross) and jump. -/
def Cpu.apply_branch (cpu : Cpu) (bus : Bus) (condition : Bool) : Option (Cpu × Bus) := do
  let (adress, c1, b1) ← cpu.fetch_relative bus
  if condition then
    some ({ c1 with
            extra_cycle := 1 + (if Cpu.is_crossing c1.pc adress then 1 else 0),
            pc := adress }, b1)
  else
    some (c1, b1)

/-- Cpu::apply_adc_op. -/
def Cpu.apply_adc_op (cpu : Cpu) (bus : Bus) (addr_mode : AddrMode) : Option (Cpu × Bus) := do
  let (adress, c1, b1) ← cpu.get_op_adress bus addr_mode
  let (value, b2) ← b1.read adress
  some (c1.add_to_accumulator value, b2)

/-- Cpu::apply_and_op. -/
def Cpu.apply_and_op (cpu : Cpu) (bus : Bus) (addr_mode : AddrMode) : Option (Cpu × Bus) := do
  let (adress, c1, b1) ← cpu.get_op_adress bus addr_mode
  let (value, b2) ← b1.read adress
  let result := c1.a &&& value
  some ({ c1 with
          z := if result = 0 then 1 else 0,
          n := if result &&& 0x80 = 0x80 then 1 else 0,
          a := result }, b2)

/-- Cpu::apply_asl_accumulator_op. -/
def Cpu.apply_asl_accumulator_op (cpu : Cpu) : Cpu :=
  let result := (cpu.a &&& 0x7F) <<< 1
  { cpu with
    c := (cpu.a &&& 0x80) >>> 7,
    n := result >>> 7,
    z := if result = 0 then 1 else 0,
    a := result }

/-- Cpu::apply_asl_op. -/
def Cpu.apply_asl_op (cpu : Cpu) (bus : Bus) (addr_mode : AddrMode) : Option (Cpu × Bus) := do
  let (adress, c1, b1) ← cpu.get_op_adress bus addr_mode
  let (value, b2) ← b1.read adress
  let result := (value &&& 0x7F) <<< 1
  let b3 ← b2.write? adress result
  some ({ c1 with
          c := (value &&& 0x80) >>> 7,
          n := result >>> 7,
          z := if result = 0 then 1 else 0 }, b3)

/-- Cpu::apply_bit_op. -/
def Cpu.apply_bit_op (cpu : Cpu) (bus : Bus) (addr_mode : AddrMode) : Option (Cpu × Bus) := do
  let (adress, c1, b1) ← cpu.get_op_adress bus addr_mode
  let (value, b2) ← b1.read adress
  some ({ c1 with
          n := value >>> 7,
          v := (value &&& 0x40) >>> 6,
          z := if c1.a &&& value = 0 then 1 else 0 }, b2)

/-- Cpu::apply_brk_op: advance pc by two, push pc high then low, and load the
IRQ vector.  The status push is commented out in the source and the I flag
is left untouched. -/
def Cpu.apply_brk_op (cpu : Cpu) (bus : Bus) : Option (Cpu × Bus) := do
  let pc1 := (cpu.pc + 2) % 65536
  let low_pc := pc1 &&& 0x00FF
  let high_pc := (pc1 &&& 0xFF00) >>> 8
  let (c1, b1) ← Cpu.stack_push { cpu with pc := pc1 } bus high_pc
  let (c2, b2) ← c1.stack_push b1 low_pc
  let (vec, b3) ← b2.read_u16 0xFFFE
  some ({ c2 with pc := vec }, b3)

/-- Cpu::apply_cmp_op (shared by CMP, CPX, CPY): overflowing_sub of the
operand from the register. -/
def Cpu.apply_cmp_op (cpu : Cpu) (register : Nat) (bus : Bus) (addr_mode : AddrMode) :
    Option (Cpu × Bus) := do
  let (adress, c1, b1) ← cpu.get_op_adress bus addr_mode
  let (value, b2) ← b1.read adress
  let result := (register + 256 - value) % 256
  some ({ c1 with
          z := if result = 0 then 1 else 0,
          n := result >>> 7,
          c := if register < value then 0 else 1 }, b2)

/-- Cpu::apply_dec_op. -/
def Cpu.apply_dec_op (cpu : Cpu) (bus : Bus) (addr_mode : AddrMode) : Option (Cpu × Bus) := do
  let (adress, c1, b1) ← cpu.get_op_adress bus addr_mode
  let (value, b2) ← b1.read adress
  let result := (value + 255) % 256
  let b3 ← b2.write? adress result
  some ({ c1 with
          z := if result = 0 then 1 else 0,
          n := result >>> 7 }, b3)

/-- Cpu::apply_dex_op. -/
def Cpu.apply_dex_op (cpu : Cpu) : Cpu :=
  let result := (cpu.x + 255) % 256
  { cpu with
    z := if result = 0 then 1 else 0,
    n := result >>> 7,
    x := result }

/-- Cpu::apply_dey_op. -/
def Cpu.apply_dey_op (cpu : Cpu) : Cpu :=
  let result := (cpu.y + 255) % 256
  { cpu with
    z := if result = 0 then 1 else 0,
    n := result >>> 7,
    y := result }

/-- Cpu::apply_eor_op. -/
def Cpu.apply_eor_op (cpu : Cpu) (bus : Bus) (addr_mode : AddrMode) : Option (Cpu × Bus) := do
  let (adress, c1, b1) ← cpu.get_op_adress bus addr_mode
  let (value, b2) ← b1.read adress
  let result := c1.a ^^^ value
  some ({ c1 with
          z := if result = 0 then 1 else 0,
          n := result >>> 7,
          a := result }, b2)

/-- Cpu::apply_inc_op. -/
def Cpu.apply_inc_op (cpu : Cpu) (bus : Bus) (addr_mode : AddrMode) : Option (Cpu × Bus) := do
  let (adress, c1, b1) ← cpu.get_op_adress bus addr_mode
  let (value, b2) ← b1.read adress
  let result := (value + 1) % 256
  let b3 ← b2.write? adress result
  some ({ c1 with
          z := if result = 0 then 1 else 0,
          n := result >>> 7 }, b3)

/-- Cpu::apply_inx_op. -/
def Cpu.apply_inx_op (cpu : Cpu) : Cpu :=
  let result := (cpu.x + 1) % 256
  { cpu with
    z := if result = 0 then 1 else 0,
    n := result >>> 7,
    x := result }

/-- Cpu::apply_iny_op. -/
def Cpu.apply_iny_op (cpu : Cpu) : Cpu :=
  let result := (cpu.y + 1) % 256
  { cpu with
    z := if result = 0 then 1 else 0,
    n := result >>> 7,
    y := result }

/-- Cpu::apply_jsr_op: push pc - 1 high then low, then jump. -/
def Cpu.apply_jsr_op (cpu : Cpu) (bus : Bus) (addr_mode : AddrMode) : Option (Cpu × Bus) := do
  let (adress, c1, b1) ← cpu.get_op_adress bus addr_mode
  let pcm1 := (c1.pc + 65535) % 65536
  let low_pc := pcm1 &&& 0x00FF
  let high_pc := (pcm1 &&& 0xFF00) >>> 8
  let (c2, b2) ← c1.stack_push b1 high_pc
  let (c3, b3) ← c2.stack_push b2 low_pc
  some ({ c3 with pc := adress }, b3)

/-- Cpu::apply_ld_op (shared by LDA, LDX, LDY): read the operand, set Z and
N, and return the byte for the caller to store in the register. -/
def Cpu.apply_ld_op (cpu : Cpu) (bus : Bus) (addr_mode : AddrMode) :
    Option (Nat × Cpu × Bus) := do
  let (adress, c1, b1) ← cpu.get_op_adress bus addr_mode
  let (value, b2) ← b1.read adress
  some (value, { c1 with
                 z := if value = 0 then 1 else 0,
                 n := value >>> 7 }, b2)

/-- Cpu::apply_lsr_accumulator_op. -/
def Cpu.apply_lsr_accumulator_op (cpu : Cpu) : Cpu :=
  let result := cpu.a >>> 1
  { cpu with
    c := cpu.a &&& 0x01,
    n := 0,
    z := if result = 0 then 1 else 0,
    a := result }

/-- Cpu::apply_lsr_op. -/
def Cpu.apply_lsr_op (cpu : Cpu) (bus : Bus) (addr_mode : AddrMode) : Option (Cpu × Bus) := do
  let (adress, c1, b1) ← cpu.get_op_adress bus addr_mode
  let (value, b2) ← b1.read adress
  let result := value >>> 1
  let b3 ← b2.write? adress result
  some ({ c1 with
          c := value &&& 0x01,
          n := 0,
          z := if result = 0 then 1 else 0 }, b3)

/-- Cpu::apply_ora_op. -/
def Cpu.apply_ora_op (cpu : Cpu) (bus : Bus) (addr_mode : AddrMode) : Option (Cpu × Bus) := do
  let (adress, c1, b1) ← cpu.get_op_adress bus addr_mode
  let (value, b2) ← b1.read adress
  let result := value ||| c1.a
  some ({ c1 with
          z := if result = 0 then 1 else 0,
          n := result >>> 7,
          a := result }, b2)

/-- Cpu::apply_pha_op. -/
def Cpu.apply_pha_op (cpu : Cpu) (bus : Bus) : Option (Cpu × Bus) :=
  cpu.stack_push bus cpu.a

/-- Cpu::apply_php_op: push the status byte with B forced to 1. -/
def Cpu.apply_php_op (cpu : Cpu) (bus : Bus) : Option (Cpu × Bus) :=
  cpu.stack_push bus (cpu.get_status ||| 0b00010000)

/-- Cpu::apply_pla_op. -/
def Cpu.apply_pla_op (cpu : Cpu) (bus : Bus) : Option (Cpu × Bus) := do
  let (value, c1, b1) ← cpu.stack_pop bus
  some ({ c1 with
          a := value,
          z := if value = 0 then 1 else 0,
          n := value >>> 7 }, b1)

/-- Cpu::apply_plp_op: pull the status byte with B cleared. -/
def Cpu.apply_plp_op (cpu : Cpu) (bus : Bus) : Option (Cpu × Bus) := do
  let (p, c1, b1) ← cpu.stack_pop bus
  some (c1.set_status (p &&& 0b11101111), b1)

/-- Cpu::apply_rol_accumulator_op. -/
def Cpu.apply_rol_accumulator_op (cpu : Cpu) : Cpu :=
  let result := ((cpu.a <<< 1) % 256) + cpu.c
  { cpu with
    c := cpu.a >>> 7,
    n := (cpu.a &&& 0x40) >>> 6,
    z := if result = 0 then 1 else 0,
    a := result }

/-- Cpu::apply_rol_op. -/
def Cpu.apply_rol_op (cpu : Cpu) (bus : Bus) (addr_mode : AddrMode) : Option (Cpu × Bus) := do
  let (adress, c1, b1) ← cpu.get_op_adress bus addr_mode
  let (value, b2) ← b1.read adress
  let result := ((value <<< 1) % 256) + c1.c
  let b3 ← b2.write? adress result
  some ({ c1 with
          c := value >>> 7,
          n := (value &&& 0x40) >>> 6,
          z := if result = 0 then 1 else 0 }, b3)

/-- Cpu::apply_ror_accumulator_op. -/
def Cpu.apply_ror_accumulator_op (cpu : Cpu) : Cpu :=
  let result := (cpu.c <<< 7) + (cpu.a >>> 1)
  { cpu with
    n := cpu.c,
    c := cpu.a &&& 0x01,
    z := if result = 0 then 1 else 0,
    a := result }

/-- Cpu::apply_ror_op. -/
def Cpu.apply_ror_op (cpu : Cpu) (bus : Bus) (addr_mode : AddrMode) : Option (Cpu × Bus) := do
  let (adress, c1, b1) ← cpu.get_op_adress bus addr_mode
  let (value, b2) ← b1.read adress
  let result := (c1.c <<< 7) + (value >>> 1)
  let b3 ← b2.write? adress result
  some ({ c1 with
          n := c1.c,
          c := value &&& 0x01,
          z := if result = 0 then 1 else 0 }, b3)

/-- Cpu::apply_rti_op. -/
def Cpu.apply_rti_op (cpu : Cpu) (bus : Bus) : Option (Cpu × Bus) := do
  let (p, c1, b1) ← cpu.stack_pop bus
  let (low_pc, c2, b2) ← c1.stack_pop b1
  let (high_pc, c3, b3) ← c2.stack_pop b2
  some (({ c3 with pc := (high_pc <<< 8) + low_pc }).set_status p, b3)

/-- Cpu::apply_rts_op. -/
def Cpu.apply_rts_op (cpu : Cpu) (bus : Bus) : Option (Cpu × Bus) := do
  let (low_pc, c1, b1) ← cpu.stack_pop bus
  let (high_pc, c2, b2) ← c1.stack_pop b1
  some ({ c2 with pc := ((high_pc <<< 8) + low_pc + 1) % 65536 }, b2)

/-- Cpu::apply_sbc_op. -/
def Cpu.apply_sbc_op (cpu : Cpu) (bus : Bus) (addr_mode : AddrMode) : Option (Cpu × Bus) := do
  let (adress, c1, b1) ← cpu.get_op_adress bus addr_mode
  let (value, b2) ← b1.read adress
  some (c1.sub_to_accumulator value, b2)

/-- Cpu::apply_lax_op. -/
def Cpu.apply_lax_op (cpu : Cpu) (bus : Bus) (addr_mode : AddrMode) : Option (Cpu × Bus) := do
  let (adress, c1, b1) ← cpu.get_op_adress bus addr_mode
  let (value, b2) ← b1.read adress
  some ({ c1 with
          a := value,
          x := value,
          n := value >>> 7,
          z := if value = 0 then 1 else 0 }, b2)

/-- Cpu::apply_sax_op: store a AND x; the flag updates are commented out in
the source. -/
def Cpu.apply_sax_op (cpu : Cpu) (bus : Bus) (addr_mode : AddrMode) : Option (Cpu × Bus) := do
  let (adress, c1, b1) ← cpu.get_op_adress bus addr_mode
  let b2 ← b1.write? adress (c1.x &&& c1.a)
  some (c1, b2)

/-- Cpu::apply_dcp_op. -/
def Cpu.apply_dcp_op (cpu : Cpu) (bus : Bus) (addr_mode : AddrMode) : Option (Cpu × Bus) := do
  let (adress, c1, b1) ← cpu.get_op_adress bus addr_mode
  let (value0, b2) ← b1.read adress
  let value := (value0 + 255) % 256
  let b3 ← b2.write? adress value
  let result := (c1.a + 256 - value) % 256
  some ({ c1 with
          z := if result = 0 then 1 else 0,
          n := result >>> 7,
          c := if value ≤ c1.a then 1 else 0 }, b3)

/-- Cpu::apply_isb_op. -/
def Cpu.apply_isb_op (cpu : Cpu) (bus : Bus) (addr_mode : AddrMode) : Option (Cpu × Bus) := do
  let (adress, c1, b1) ← cpu.get_op_adress bus addr_mode
  let (value0, b2) ← b1.read adress
  let value := (value0 + 1) % 256
  let b3 ← b2.write? adress value
  some (c1.sub_to_accumulator value, b3)

/-- Cpu::apply_slo_op. -/
def Cpu.apply_slo_op (cpu : Cpu) (bus : Bus) (addr_mode : AddrMode) : Option (Cpu × Bus) := do
  let (adress, c1, b1) ← cpu.get_op_adress bus addr_mode
  let (value, b2) ← b1.read adress
  let result := (value <<< 1) % 256
  let b3 ← b2.write? adress result
  let a1 := c1.a ||| result
  some ({ c1 with
          a := a1,
          z := if a1 = 0 then 1 else 0,
          n := a1 >>> 7,
          c := value >>> 7 }, b3)

/-- Cpu::apply_sre_op. -/
def Cpu.apply_sre_op (cpu : Cpu) (bus : Bus) (addr_mode : AddrMode) : Option (Cpu × Bus) := do
  let (adress, c1, b1) ← cpu.get_op_adress bus addr_mode
  let (value, b2) ← b1.read adress
  let result := value >>> 1
  let b3 ← b2.write? adress result
  let a1 := c1.a ^^^ result
  some ({ c1 with
          c := value &&& 0x01,
          a := a1,
          z := if a1 = 0 then 1 else 0,
          n := a1 >>> 7 }, b3)

/-- Cpu::apply_rla_op. -/
def Cpu.apply_rla_op (cpu : Cpu) (bus : Bus) (addr_mode : AddrMode) : Option (Cpu × Bus) := do
  let (adress, c1, b1) ← cpu.get_op_adress bus addr_mode
  let (value, b2) ← b1.read adress
  let result := ((value <<< 1) % 256) ||| (c1.c &&& 0x01)
  let b3 ← b2.write? adress result
  let a1 := c1.a &&& result
  some ({ c1 with
          a := a1,
          z := if a1 = 0 then 1 else 0,
          n := a1 >>> 7,
          c := value >>> 7 }, b3)

/-- Cpu::apply_rra_op: the carry is set from the rotated-out bit before the
add, so the add consumes the new carry. -/
def Cpu.apply_rra_op (cpu : Cpu) (bus : Bus) (addr_mode : AddrMode) : Option (Cpu × Bus) := do
  let (adress, c1, b1) ← cpu.get_op_adress bus addr_mode
  let (value, b2) ← b1.read adress
  let result := (c1.c <<< 7) ||| (value >>> 1)
  let b3 ← b2.write? adress result
  some (({ c1 with c := value &&& 0x01 }).add_to_accumulator result, b3)

/-- Cpu::execute: the instruction dispatch. -/
def Cpu.execute (cpu : Cpu) (bus : Bus) (instruction : Instruction)
    (addr_mode : AddrMode) : Option (Cpu × Bus) :=
  match instruction with
  | Instruction.Adc => cpu.apply_adc_op bus addr_mode
  | Instruction.And => cpu.apply_and_op bus addr_mode
  | Instruction.Asl =>
    match addr_mode with
    | AddrMode.Accumulator => some (cpu.apply_asl_accumulator_op, bus)
    | _ => cpu.apply_asl_op bus addr_mode
  | Instruction.Bcc => cpu.apply_branch bus (cpu.c = 0)
  | Instruction.Bcs => cpu.apply_branch bus (cpu.c ≠ 0)
  | Instruction.Beq => cpu.apply_branch bus (cpu.z ≠ 0)
  | Instruction.Bit => cpu.apply_bit_op bus addr_mode
  | Instruction.Bmi => cpu.apply_branch bus (cpu.n ≠ 0)
  | Instruction.Bne => cpu.apply_branch bus (cpu.z = 0)
  | Instruction.Bpl => cpu.apply_branch bus (cpu.n = 0)
  | Instruction.Brk => cpu.apply_brk_op bus
  | Instruction.Bvc => cpu.apply_branch bus (cpu.v = 0)
  | Instruction.Bvs => cpu.apply_branch bus (cpu.v ≠ 0)
  | Instruction.Clc => some ({ cpu with c := 0 }, bus)
  | Instruction.Cld => some ({ cpu with d := 0 }, bus)
  | Instruction.Cli => some ({ cpu with i := 0 }, bus)
  | Instruction.Clv => some ({ cpu with v := 0 }, bus)
  | Instruction.Cmp => cpu.apply_cmp_op cpu.a bus addr_mode
  | Instruction.Cpx => cpu.apply_cmp_op cpu.x bus addr_mode
  | Instruction.Cpy => cpu.apply_cmp_op cpu.y bus addr_mode
  | Instruction.Dec => cpu.apply_dec_op bus addr_mode
  | Instruction.Dex => some (cpu.apply_dex_op, bus)
  | Instruction.Dey => some (cpu.apply_dey_op, bus)
  | Instruction.Eor => cpu.apply_eor_op bus addr_mode
  | Instruction.Inc => cpu.apply_inc_op bus addr_mode
  | Instruction.Inx => some (cpu.apply_inx_op, bus)
  | Instruction.Iny => some (cpu.apply_iny_op, bus)
  | Instruction.Jmp => do
    let (adress, c1, b1) ← cpu.get_op_adress bus addr_mode
    some ({ c1 with pc := adress }, b1)
  | Instruction.Jsr => cpu.apply_jsr_op bus addr_mode
  | Instruction.Lda => do
    let (value, c1, b1) ← cpu.apply_ld_op bus addr_mode
    some ({ c1 with a := value }, b1)
  | Instruction.Ldx => do
    let (value, c1, b1) ← cpu.apply_ld_op bus addr_mode
    some ({ c1 with x := value }, b1)
  | Instruction.Ldy => do
    let (value, c1, b1) ← cpu.apply_ld_op bus addr_mode
    some ({ c1 with y := value }, b1)
  | Instruction.Lsr =>
    match addr_mode with
    | AddrMode.Accumulator => some (cpu.apply_lsr_accumulator_op, bus)
    | _ => cpu.apply_lsr_op bus addr_mode
  | Instruction.Ora => cpu.apply_ora_op bus addr_mode
  | Instruction.Pha => cpu.apply_pha_op bus
  | Instruction.Php => cpu.apply_php_op bus
  | Instruction.Pla => cpu.apply_pla_op bus
  | Instruction.Plp => cpu.apply_plp_op bus
  | Instruction.Rol =>
    match addr_mode with
    | AddrMode.Accumulator => some (cpu.apply_rol_accumulator_op, bus)
    | _ => cpu.apply_rol_op bus addr_mode
  | Instruction.Ror =>
    match addr_mode with
    | AddrMode.Accumulator => some (cpu.apply_ror_accumulator_op, bus)
    | _ => cpu.apply_ror_op bus addr_mode
  | Instruction.Rti => cpu.apply_rti_op bus
  | Instruction.Rts => cpu.apply_rts_op bus
  | Instruction.Sbc => cpu.apply_sbc_op bus addr_mode
  | Instruction.Sec => some ({ cpu with c := 1 }, bus)
  | Instruction.Sed => some ({ cpu with d := 1 }, bus)
  | Instruction.Sei => some ({ cpu with i := 1 }, bus)
  | Instruction.Sta => do
    let (adress, c1, b1) ← cpu.get_op_adress bus addr_mode
    let b2 ← b1.write? adress c1.a
    some (c1, b2)
  | Instruction.Stx => do
    let (adress, c1, b1) ← cpu.get_op_adress bus addr_mode
    let b2 ← b1.write? adress c1.x
    some (c1, b2)
  | Instruction.Sty => do
    let (adress, c1, b1) ← cpu.get_op_adress bus addr_mode
    let b2 ← b1.write? adress c1.y
    some (c1, b2)
  | Instruction.Tax =>
    some ({ cpu with x := cpu.a,
                     z := if cpu.a = 0 then 1 else 0,
                     n := cpu.a >>> 7 }, bus)
  | Instruction.Tay =>
    some ({ cpu with y := cpu.a,
                     z := if cpu.a = 0 then 1 else 0,
                     n := cpu.a >>> 7 }, bus)
  | Instruction.Tsx =>
    some ({ cpu with x := cpu.sp,
                     z := if cpu.sp = 0 then 1 else 0,
                     n := cpu.sp >>> 7 }, bus)
  | Instruction.Txa =>
    some ({ cpu with a := cpu.x,
                     z := if cpu.x = 0 then 1 else 0,
                     n := cpu.x >>> 7 }, bus)
  | Instruction.Txs => some ({ cpu with sp := cpu.x }, bus)
  | Instruction.Tya =>
    some ({ cpu with a := cpu.y,
                     z := if cpu.y = 0 then 1 else 0,
                     n := cpu.y >>> 7 }, bus)
  | Instruction.Nop => some (cpu, bus)
  | Instruction.Dop => some ({ cpu with pc := (cpu.pc + 1) % 65536 }, bus)
  | Instruction.Top => some ({ cpu with pc := (cpu.pc + 2) % 65536 }, bus)
  | Instruction.Lax => cpu.apply_lax_op bus addr_mode
  | Instruction.Sax => cpu.apply_sax_op bus addr_mode
  | Instruction.Dcp => cpu.apply_dcp_op bus addr_mode
  | Instruction.Isb => cpu.apply_isb_op bus addr_mode
  | Instruction.Slo => cpu.apply_slo_op bus addr_mode
  | Instruction.Sre => cpu.apply_sre_op bus addr_mode
  | Instruction.Rla => cpu.apply_rla_op bus addr_mode
  | Instruction.Rra => cpu.apply_rra_op bus addr_mode

/-- Cpu::run_with_callback: the fetch-decode-execute loop, modelled with
explicit fuel.  The callback runs before each step; decode's length and
cycle fields are bound and discarded exactly as in the source; on BRK the
loop stops and the state is returned.  No cycle count is produced. -/
def Cpu.run_with_callback (fuel : Nat) (callback : Cpu → Bus → Cpu × Bus)
    (cpu : Cpu) (bus : Bus) : Option (Cpu × Bus) :=
  match fuel with
  | 0 => none
  | fuel + 1 => do
    let (c0, b0) := callback cpu bus
    let (opcode, c1, b1) ← c0.fetch b0
    let (instr, addr_mode, _, _) ← Cpu.decode opcode
    match instr with
    | Instruction.Brk => some (c1, b1)
    | _ => do
      let (c2, b2) ← Cpu.execute { c1 with extra_cycle := 0 } b1 instr addr_mode
      Cpu.run_with_callback fuel callback c2 b2

/-- Cpu::run: run_with_callback with an empty callback. -/
def Cpu.run (fuel : Nat) (cpu : Cpu) (bus : Bus) : Option (Cpu × Bus) :=
  Cpu.run_with_callback fuel (fun c b => (c, b)) cpu bus

/-- The state effects of the trace function (cpu.rs), before the final pc
restore: the opcode fetch, the operand-byte reads used for the hex column,
the get_op_adress call, and the per-mode reads whose values appear in the
formatted operand.  The string building itself is pure and is omitted; every
bus access of the source is retained, in source order. -/
def trace_body (cpu : Cpu) (bus : Bus) : Option (Cpu × Bus) := do
  let pc := cpu.pc
  let (opcode, c1, b1) ← cpu.fetch bus
  let (instr, addr_mode, size, _) ← Cpu.decode opcode
  match size with
  | 1 =>
    -- Accumulator or implicit: the suffix is built without bus access.
    some (c1, b1)
  | 2 => do
    let (_arg, b2) ← b1.read ((pc + 1) % 65536)
    let (adress, c2, b3) ← c1.get_op_adress b2 addr_mode
    match addr_mode with
    | AddrMode.Immediate => some (c2, b3)
    | AddrMode.ZeroPage => do
      let (_, b4) ← b3.read adress
      some (c2, b4)
    | AddrMode.XIndexedZeroPage => do
      let (_, b4) ← b3.read adress
      some (c2, b4)
    | AddrMode.YIndexedZeroPage => do
      let (_, b4) ← b3.read adress
      some (c2, b4)
    | AddrMode.XIndexedZeroPageIndirect => do
      let (_, b4) ← b3.read adress
      some (c2, b4)
    | AddrMode.ZeroPageIndirectYIndexed => do
      let (_lo, b4) ← b3.read _arg
      let (_hi, b5) ← b4.read ((_arg + 1) % 256)
      let (_, b6) ← b5.read adress
      some (c2, b6)
    | AddrMode.Relative => some (c2, b3)
    | _ => none
  | 3 => do
    let (_lo_byte, b2) ← b1.read ((pc + 1) % 65536)
    let (_hi_byte, b3) ← b2.read ((pc + 2) % 65536)
    let (adress, c2, b4) ← c1.get_op_adress b3 addr_mode
    match addr_mode with
    | AddrMode.Absolute =>
      match instr with
      | Instruction.Jmp => some (c2, b4)
      | Instruction.Jsr => some (c2, b4)
      | _ => do
        let (_, b5) ← b4.read adress
        some (c2, b5)
    | AddrMode.XIndexedAbsolute => do
      let (_, b5) ← b4.read adress
      some (c2, b5)
    | AddrMode.YIndexedAbsolute => do
      let (_, b5) ← b4.read adress
      some (c2, b5)
    | AddrMode.AbsoluteIndirect => some (c2, b4)
    | _ => none
  | _ => none

/-- trace (cpu.rs): run the disassembly reads of trace_body, then restore pc
as the source does with cpu.pc = pc just before formatting the line. -/
def trace_effect (cpu : Cpu) (bus : Bus) : Option (Cpu × Bus) :=
  match trace_body cpu bus with
  | some (c, b) => some ({ c with pc := cpu.pc }, b)
  | none => none

/-! Concrete states used by the witnesses and counterexamples below.  Each
claim has its own inputs. -/

/-- A CPU with a = 0x50 and carry set, for the ADC witness. -/
def c1wCpu : Cpu := { Cpu.new with a := 0x50, c := 1 }

/-- A CPU with a = 0x50 and carry set, for the SBC/ADC witness. -/
def c2wCpu : Cpu := { Cpu.new with a := 0x50, c := 1 }

/-- An empty NROM-128 cartridge for the JMP-indirect witness. -/
def c3Rom : Rom :=
  { mapper := Nrom.new ⟨fun _ => 0, 16384⟩ ⟨fun _ => 0, 8192⟩,
    mirroring := Mirroring.Vertical }

/-- RAM holding the pointer bytes of JMP (0x01FF): the pointer low byte 0xFF
at 0x0200 and high byte 0x01 at 0x0201, the target low byte 0x34 at 0x01FF,
and the target high byte 0x12 at 0x0100 (the same page as the pointer). -/
def c3Bus : Bus :=
  { Bus.new c3Rom with
    cpu_ram := fun a =>
      if a = 0x0200 then 0xFF
      else if a = 0x0201 then 0x01
      else if a = 0x01FF then 0x34
      else if a = 0x0100 then 0x12
      else 0 }

/-- A CPU about to fetch the two pointer bytes at 0x0200. -/
def c3Cpu : Cpu := { Cpu.new with pc := 0x0200 }

/-- An empty NROM-128 cartridge for the stack witness. -/
def c4Rom : Rom :=
  { mapper := Nrom.new ⟨fun _ => 0, 16384⟩ ⟨fun _ => 0, 8192⟩,
    mirroring := Mirroring.Vertical }

/-- A bus with zeroed RAM for the stack witness. -/
def c4wBus : Bus := Bus.new c4Rom

/-- A CPU whose stack pointer sits at the wrap-around value 0x00. -/
def c4wCpu : Cpu := { Cpu.new with sp := 0 }

/-- An empty NROM-128 cartridge for the BRK evaluation. -/
def c5Rom : Rom :=
  { mapper := Nrom.new ⟨fun _ => 0, 16384⟩ ⟨fun _ => 0, 8192⟩,
    mirroring := Mirroring.Vertical }

/-- A bus with zeroed RAM and an all-zero IRQ vector. -/
def c5Bus : Bus := Bus.new c5Rom

/-- A CPU that has just fetched a BRK opcode located at 0x0200, so pc points
at the signature byte 0x0201; sp is the reset value 0xFD and all flags are
clear. -/
def c5Cpu : Cpu := { Cpu.new with pc := 0x0201 }

/-- An empty NROM-128 cartridge for the run_with_callback evaluation. -/
def c6Rom : Rom :=
  { mapper := Nrom.new ⟨fun _ => 0, 16384⟩ ⟨fun _ => 0, 8192⟩,
    mirroring := Mirroring.Vertical }

/-- RAM holding the program A9 05 00 (LDA number 0x05 then BRK) at 0x0200. -/
def c6Bus : Bus :=
  { Bus.new c6Rom with
    cpu_ram := fun a =>
      if a = 0x0200 then 0xA9
      else if a = 0x0201 then 0x05
      else if a = 0x0202 then 0x00
      else 0 }

/-- A CPU about to execute the program at 0x0200. -/
def c6Cpu : Cpu := { Cpu.new with pc := 0x0200 }

/-- A 32 KiB PRG ROM (an NROM-256 cartridge) whose first 16 KiB hold 0x11
and second 16 KiB hold 0x22. -/
def c7pgr : ByteVec := ⟨fun i => if i < 16384 then 0x11 else 0x22, 32768⟩

/-- The standard 8 KiB CHR ROM accompanying it. -/
def c7chr : ByteVec := ⟨fun _ => 0, 8192⟩

/-- An NROM-128 cartridge with zeroed 16 KiB PRG ROM, target of the write
evaluation. -/
def c8Nrom : Nrom := Nrom.new ⟨fun _ => 0, 16384⟩ ⟨fun _ => 0, 8192⟩

/-- An empty NROM-128 cartridge for the trace theorems. -/
def c9Rom : Rom :=
  { mapper := Nrom.new ⟨fun _ => 0, 16384⟩ ⟨fun _ => 0, 8192⟩,
    mirroring := Mirroring.Vertical }

/-- RAM holding LDA 0x2007 absolute (AD 07 20) at 0x0200, with the PPU
address register pointing into the nametable range at 0x2345. -/
def c9Bus : Bus :=
  { Bus.new c9Rom with
    cpu_ram := fun a =>
      if a = 0x0200 then 0xAD
      else if a = 0x0201 then 0x07
      else if a = 0x0202 then 0x20
      else 0,
    ppu := { Ppu.new Mirroring.Vertical with
             addr := { value := 0x2345, is_hi := true },
             internal_data_buf := 0xAB } }

/-- A CPU about to trace the instruction at 0x0200. -/
def c9Cpu : Cpu := { Cpu.new with pc := 0x0200 }

/-- RAM holding a NOP (0xEA) at 0x0200, for the pc-restoring witness. -/
def c9wBus : Bus :=
  { Bus.new c9Rom with
    cpu_ram := fun a => if a = 0x0200 then 0xEA else 0 }

/-- A CPU about to trace the NOP at 0x0200. -/
def c9wCpu : Cpu := { Cpu.new with pc := 0x0200 }

/-- An empty four-screen cartridge for the nametable-write counterexample. -/
def c10Rom : Rom :=
  { mapper := Nrom.new ⟨fun _ => 0, 16384⟩ ⟨fun _ => 0, 8192⟩,
    mirroring := Mirroring.FourScreen }

/-- A bus whose PPU uses four-screen mirroring with the address register at
0x2800 (nametable 2), where the mirrored VRAM index 0x800 falls outside the
2048-byte array. -/
def c10Bus : Bus :=
  { Bus.new c10Rom with
    ppu := { Ppu.new Mirroring.FourScreen with
             addr := { value := 0x2800, is_hi := true } } }

/-- An empty vertically mirrored cartridge for the nametable-write witness. -/
def c10wRom : Rom :=
  { mapper := Nrom.new ⟨fun _ => 0, 16384⟩ ⟨fun _ => 0, 8192⟩,
    mirroring := Mirroring.Vertical }

/-- A bus whose PPU uses vertical mirroring with the address register at
0x2345 in the nametable range. -/
def c10wBus : Bus :=
  { Bus.new c10wRom with
    ppu := { Ppu.new Mirroring.Vertical with
             addr := { value := 0x2345, is_hi := true } } }

/-! Helper lemmas about bytes and bit operations. -/

/-- Masking with 0x80 is zero exactly when bit 7 is clear. -/
theorem and128_eq_zero_iff (x : Nat) : x &&& 128 = 0 ↔ x.testBit 7 = false := by
  constructor
  · intro h
    have h7 := congrArg (fun t => t.testBit 7) h
    have h128 : Nat.testBit 128 7 = true := by decide
    simpa [Nat.testBit_and, h128] using h7
  · intro h
    apply Nat.eq_of_testBit_eq
    intro j
    simp only [Nat.testBit_and, Nat.zero_testBit]
    by_cases hj : j = 7
    · subst hj; simp [h]
    · have hb : (128 : Nat).testBit j = false := by
        have he : (128 : Nat) = 2 ^ 7 := by norm_num
        rw [he, Nat.testBit_two_pow]
        simpa using fun hc => hj hc.symm
      simp [hb]

/-- The xor of two bytes has bit 7 clear exactly when the two agree in
bit 7. -/
theorem xor_and128_eq_zero_iff (x y : Nat) :
    ((x ^^^ y) &&& 0x80 = 0) ↔ (x.testBit 7 = y.testBit 7) := by
  rw [show (0x80 : Nat) = 128 from rfl, and128_eq_zero_iff, Nat.testBit_xor]
  cases hx : x.testBit 7 <;> cases hy : y.testBit 7 <;> simp

/-- A high-page mask plus a low-byte mask is their bitwise or: the summands
occupy disjoint bits. -/
theorem or_disjoint_add (p q : Nat) :
    (p &&& 0xFF00) + (q &&& 0x00FF) = (p &&& 0xFF00) ||| (q &&& 0x00FF) := by
  have hq : q &&& 0x00FF < 2 ^ 8 := by
    have : q &&& 0x00FF ≤ 0x00FF := Nat.and_le_right
    omega
  have hp : (p &&& 0xFF00) % 2 ^ 8 = 0 := by
    have h1 : (p &&& 0xFF00) &&& 0xFF = p &&& (0xFF00 &&& 0xFF) := Nat.and_assoc p 0xFF00 0xFF
    have h2 : (0xFF00 : Nat) &&& 0xFF = 0 := by decide
    have h3 : (p &&& 0xFF00) &&& (2 ^ 8 - 1) = (p &&& 0xFF00) % 2 ^ 8 :=
      Nat.and_pow_two_sub_one_eq_mod _ 8
    have h4 : ((2 : Nat) ^ 8 - 1) = 0xFF := by norm_num
    rw [h4] at h3
    rw [h1, h2, Nat.and_zero] at h3
    omega
  have hsplit : p &&& 0xFF00 = 2 ^ 8 * ((p &&& 0xFF00) / 2 ^ 8) := by omega
  calc (p &&& 0xFF00) + (q &&& 0x00FF)
      = 2 ^ 8 * ((p &&& 0xFF00) / 2 ^ 8) + (q &&& 0x00FF) := by omega
    _ = 2 ^ 8 * ((p &&& 0xFF00) / 2 ^ 8) ||| (q &&& 0x00FF) := Nat.mul_add_lt_is_or hq _
    _ = (p &&& 0xFF00) ||| (q &&& 0x00FF) := by rw [← hsplit]

/-- Or-ing a byte below 256 into a high-page mask leaves the page bits
unchanged. -/
theorem or_low_byte_page (p b : Nat) (hb : b < 256) :
    ((p &&& 0xFF00) ||| b) &&& 0xFF00 = p &&& 0xFF00 := by
  apply Nat.eq_of_testBit_eq
  intro j
  simp only [Nat.testBit_and, Nat.testBit_or]
  by_cases hj : j < 8
  · have hm : (0xFF00 : Nat).testBit j = false := by
      interval_cases j <;> decide
    simp [hm]
  · have hbj : b.testBit j = false := by
      apply Nat.testBit_lt_two_pow
      calc b < 256 := hb
        _ = 2 ^ 8 := by norm_num
        _ ≤ 2 ^ j := Nat.pow_le_pow_right (by norm_num) (by omega)
    simp [hbj, Bool.and_assoc]

/-- The i8 round trip wrapping_neg followed by wrapping_sub 1 is the
bitwise complement of a byte. -/
theorem byte_neg_sub_one (v : Nat) (hv : v < 256) :
    ((256 - v % 256) % 256 + 255) % 256 = v ^^^ 255 := by
  have h255 : 255 - v = v ^^^ 255 := by
    have hfin := fun w : Fin 256 => (by decide : ∀ w : Fin 256, 255 - w.val = w.val ^^^ 255) w
    exact hfin ⟨v, hv⟩
  omega

/-- For a byte, shifting right by 7 yields the 0/1 value of bit 7. -/
theorem shiftRight7 (r : Nat) (h : r < 256) :
    r >>> 7 = if r.testBit 7 then 1 else 0 := by
  rw [Nat.shiftRight_eq_div_pow, Nat.testBit_to_div_mod]
  simp only [decide_eq_true_eq]
  split <;> omega

/-! The claims. -/

/-- Claim C1: for every accumulator value A, operand byte M and incoming
carry C, add_to_accumulator (the ADC core) leaves the carry and accumulator
such that the packed 9-bit result (C_out, A_out) equals A + M + C modulo
512; V is set iff A and M agree in bit 7 and the result differs from A in
bit 7; N equals bit 7 of the result; Z is set iff the result is zero. -/
theorem adc_flags_and_packed_result (cpu : Cpu) (value : Nat)
    (ha : cpu.a < 256) (hv : value < 256) (hc : cpu.c ≤ 1) :
    ((cpu.add_to_accumulator value).c * 256 + (cpu.add_to_accumulator value).a
        = (cpu.a + value + cpu.c) % 512) ∧
    ((cpu.add_to_accumulator value).v = 1 ↔
      (cpu.a.testBit 7 = value.testBit 7 ∧
        ¬ cpu.a.testBit 7 = (cpu.add_to_accumulator value).a.testBit 7)) ∧
    ((cpu.add_to_accumulator value).n
        = if (cpu.add_to_accumulator value).a.testBit 7 then 1 else 0) ∧
    ((cpu.add_to_accumulator value).z = 1 ↔ (cpu.add_to_accumulator value).a = 0) := by
  simp only [Cpu.add_to_accumulator]
  simp only [Nat.mod_add_mod]
  refine ⟨?_, ?_, ?_, ?_⟩
  · split <;> omega
  · simp only [xor_and128_eq_zero_iff]
    split
    · rename_i h
      obtain ⟨h1, h2⟩ := h
      simp only [h1] at h2
      simp [h1, h2]
    · rename_i h
      simp [h]
  · exact shiftRight7 _ (by omega)
  · constructor
    · intro h; split at h <;> omega
    · intro h; simp [h]

/-- Witness for C1 at A = 0x50, M = 0x50, C = 1: the packed result equals
(0x50 + 0x50 + 1) mod 512. -/
theorem adc_flags_and_packed_result_witness :
    c1wCpu.a < 256 ∧
    ((c1wCpu.add_to_accumulator 0x50).c * 256 + (c1wCpu.add_to_accumulator 0x50).a
        = (c1wCpu.a + 0x50 + c1wCpu.c) % 512) :=
  ⟨by decide,
   (adc_flags_and_packed_result c1wCpu 0x50 (by decide) (by decide) (by decide)).1⟩

/-- Claim C2: for every CPU state and operand byte M, executing the SBC core
produces exactly the same CPU state as executing the ADC core on M xor
0xFF. -/
theorem sbc_eq_adc_complement (cpu : Cpu) (value : Nat) (hv : value < 256) :
    cpu.sub_to_accumulator value = cpu.add_to_accumulator (value ^^^ 0xFF) := by
  unfold Cpu.sub_to_accumulator
  rw [byte_neg_sub_one value hv]

/-- Witness for C2 at M = 0x10. -/
theorem sbc_eq_adc_complement_witness :
    (0x10 : Nat) < 256 ∧
    c2wCpu.sub_to_accumulator 0x10 = c2wCpu.add_to_accumulator (0x10 ^^^ 0xFF) :=
  ⟨by decide, sbc_eq_adc_complement c2wCpu 0x10 (by decide)⟩

/-- Claim C3: for every 16-bit pointer assembled from the two fetched bytes,
the absolute-indirect fetch reads the target low byte from ptr and the
target high byte from (ptr and 0xFF00) or ((ptr+1) and 0x00FF); that address
always stays on the page of ptr, and for ptr = 0x30FF it is 0x3000, not
0x3100. -/
theorem jmp_indirect_page_wrap (cpu : Cpu) (bus b1 b2 b3 b4 : Bus)
    (lo hi tlo thi : Nat)
    (h1 : bus.read cpu.pc = some (lo, b1))
    (h2 : b1.read ((cpu.pc + 1) % 65536) = some (hi, b2))
    (h3 : b2.read (lo + (hi <<< 8)) = some (tlo, b3))
    (h4 : b3.read (((lo + (hi <<< 8)) &&& 0xFF00) ||| (((lo + (hi <<< 8)) + 1) &&& 0x00FF))
          = some (thi, b4)) :
    ((cpu.fetch_absolute_indirect_adress bus).map (fun r => (r.1, r.2.2))
        = some (tlo + (thi <<< 8), b4)) ∧
    ((((lo + (hi <<< 8)) &&& 0xFF00) ||| (((lo + (hi <<< 8)) + 1) &&& 0x00FF)) &&& 0xFF00
        = (lo + (hi <<< 8)) &&& 0xFF00) ∧
    ((((0x30FF : Nat) &&& 0xFF00) + ((0x30FF + 1) &&& 0x00FF)) = 0x3000) := by
  refine ⟨?_, ?_, by decide⟩
  · simp only [Cpu.fetch_absolute_indirect_adress, Cpu.fetch_absolute_adress, Cpu.fetch,
      bind, Option.bind, h1, h2, or_disjoint_add, h3, h4, Option.map]
  · apply or_low_byte_page
    have : ((lo + (hi <<< 8)) + 1) &&& 0x00FF ≤ 0x00FF := Nat.and_le_right
    omega

/-- Witness for C3: a pointer at 0x01FF whose high target byte is read from
0x0100 rather than 0x0200, assembling the target 0x1234. -/
theorem jmp_indirect_page_wrap_witness :
    (c3Cpu.fetch_absolute_indirect_adress c3Bus).map (fun r => (r.1, r.2.2))
      = some (0x34 + (0x12 <<< 8), c3Bus) :=
  (jmp_indirect_page_wrap c3Cpu c3Bus c3Bus c3Bus c3Bus c3Bus
    0xFF 0x01 0x34 0x12 rfl rfl rfl rfl).1

/-- Claim C4: for every 8-bit value and every stack pointer value, including
0x00 and 0xFF, a stack push followed by a stack pop returns the pushed value
and restores sp to its prior value, with sp arithmetic wrapping modulo
256. -/
theorem stack_push_pop_roundtrip (cpu : Cpu) (bus : Bus) (value : Nat)
    (hsp : cpu.sp < 256) (hv : value < 256) :
    ∃ c1 b1 c2 b2,
      cpu.stack_push bus value = some (c1, b1) ∧
      c1.sp = (cpu.sp + 255) % 256 ∧
      c1.stack_pop b1 = some (value, c2, b2) ∧
      c2.sp = cpu.sp := by
  have haddr : 0x0100 + cpu.sp ≤ 0x1FFF := by omega
  have hmask : (0x0100 + cpu.sp) &&& 0x7FF = 0x0100 + cpu.sp := by
    have he : (0x7FF : Nat) = 2 ^ 11 - 1 := by norm_num
    rw [he, Nat.and_pow_two_sub_one_eq_mod]
    omega
  have hsp2 : ((cpu.sp + 255) % 256 + 1) % 256 = cpu.sp := by omega
  refine ⟨{ cpu with sp := (cpu.sp + 255) % 256 },
         { bus with cpu_ram :=
             fun j => if j = ((0x0100 + cpu.sp) &&& 0x7FF) then value else bus.cpu_ram j },
         { cpu with sp := ((cpu.sp + 255) % 256 + 1) % 256 },
         { bus with cpu_ram :=
             fun j => if j = ((0x0100 + cpu.sp) &&& 0x7FF) then value else bus.cpu_ram j },
         ?_, rfl, ?_, ?_⟩
  · simp only [Cpu.stack_push, Bus.write?, Bus.write, Bus.write_rec, if_pos haddr,
      bind, Option.bind]
  · simp only [Cpu.stack_pop, hsp2, Bus.read, Bus.read_rec, if_pos haddr,
      bind, Option.bind, hmask]
    simp
  · exact hsp2

/-- Witness for C4 at the wrap-around stack pointer sp = 0x00 with value
0x7E. -/
theorem stack_push_pop_roundtrip_witness :
    c4wCpu.sp < 256 ∧
    ∃ c1 b1 c2 b2,
      c4wCpu.stack_push c4wBus 0x7E = some (c1, b1) ∧
      c1.sp = (c4wCpu.sp + 255) % 256 ∧
      c1.stack_pop b1 = some (0x7E, c2, b2) ∧
      c2.sp = c4wCpu.sp :=
  ⟨by decide, stack_push_pop_roundtrip c4wCpu c4wBus 0x7E (by decide) (by decide)⟩

/-- Claim C5 (evaluation of the code at the failing input): executing BRK
from pc = 0x0201 (opcode at 0x0200, sp = 0xFD, all flags clear, zeroed
memory) advances pc by two bytes and pushes 0x02 then 0x03 (the bytes of
opcode address + 3), decrements sp only twice (to 0xFB, so no status byte is
pushed: 0x01FB still holds 0), leaves the I flag clear, and loads pc from
0xFFFE. -/
theorem brk_pushes_pc_only_eval :
    (c5Cpu.apply_brk_op c5Bus).map
        (fun s => (s.1.pc, s.1.sp, s.1.i, s.2.cpu_ram 0x01FD, s.2.cpu_ram 0x01FC,
                   s.2.cpu_ram 0x01FB))
      = some (0x0000, 0xFB, 0, 0x02, 0x03, 0) := rfl

/-- Claim C6 (evaluation of the code at the failing input): running the
program LDA number 0x05 then BRK returns only the final CPU and bus state:
the loop binds decode's cycle fields to underscores and produces no cycle
count, even though the opcode table carries base cycles (2 for opcode
0xA9). -/
theorem run_returns_state_without_cycles_eval :
    ((Cpu.run 10 c6Cpu c6Bus).map (fun s => (s.1.a, s.1.pc, s.1.z, s.1.n))
        = some (0x05, 0x0203, 0, 0)) ∧
    Cpu.decode 0xA9 = some (Instruction.Lda, AddrMode.Immediate, 2, 2) :=
  ⟨rfl, rfl⟩

/-- Claim C7 (evaluation of the code at the failing input): Nrom::new applied
to a 32 KiB PRG ROM with the standard 8 KiB CHR ROM selects Nrom128 (the CHR
length 8192 is not above 8196), so the CPU read of 0xC000 is masked with
0x3FFF and returns the byte 0x11 from offset 0x0000 instead of the byte 0x22
that lives at offset 0x4000 = 0xC000 and 0x7FFF. -/
theorem nrom_variant_chosen_by_chr_size_eval :
    ((Nrom.new c7pgr c7chr).cpu_read 0xC000 = some 0x11) ∧
    c7pgr.data (0xC000 &&& 0x7FFF) = 0x22 ∧
    (0x11 : Nat) ≠ 0x22 :=
  ⟨rfl, rfl, by decide⟩

/-- Claim C8 (evaluation of the code at the failing input): a CPU write of
0x42 to 0x8000 through the NROM mapper completes and silently replaces the
PRG ROM byte at offset 0, which was 0 before. -/
theorem nrom_cpu_write_modifies_prg_eval :
    ((c8Nrom.cpu_write 0x8000 0x42).map (fun m => m.pgr_rom.data 0) = some 0x42) ∧
    c8Nrom.pgr_rom.data 0 = 0 :=
  ⟨rfl, rfl⟩

/-- Claim C9 (amended): whenever trace completes, it leaves pc unchanged. -/
theorem trace_restores_pc (cpu : Cpu) (bus : Bus) (c1 : Cpu) (b1 : Bus)
    (h : trace_effect cpu bus = some (c1, b1)) : c1.pc = cpu.pc := by
  unfold trace_effect at h
  revert h
  cases trace_body cpu bus with
  | none => intro h; cases h
  | some p =>
    intro h
    obtain ⟨c, b⟩ := p
    simp only [Option.some.injEq, Prod.mk.injEq] at h
    obtain ⟨hc, hb⟩ := h
    rw [← hc]

/-- Witness for C9: tracing a NOP at 0x0200 completes and leaves pc at
0x0200. -/
theorem trace_restores_pc_witness :
    trace_effect c9wCpu c9wBus = some (c9wCpu, c9wBus) ∧ c9wCpu.pc = c9wCpu.pc :=
  ⟨rfl, trace_restores_pc c9wCpu c9wBus c9wCpu c9wBus rfl⟩

/-- Counterexample for C9 as stated: tracing LDA 0x2007 absolute reads the
PPU data register while formatting the operand, observably advancing the
PPU VRAM address from 0x2345 to 0x2346 even though pc is restored. -/
theorem trace_mutates_ppu_cex :
    ((trace_effect c9Cpu c9Bus).map (fun s => (s.1.pc, s.2.ppu.addr.value))
        = some (0x0200, 0x2346)) ∧
    c9Bus.ppu.addr.value = 0x2345 :=
  ⟨rfl, rfl⟩

/-- Claim C10 (amended): a write to bus address 0x2007 while the PPU address
register holds a nametable address in 0x2000..=0x2FFF always panics before
completing, with the address register not incremented; when the mirrored
index fits the 2 KiB VRAM the byte is first stored, and otherwise the
out-of-bounds store itself fails with VRAM unchanged. -/
theorem ppu_nametable_write_never_completes (bus : Bus) (value : Nat)
    (h1 : 0x2000 ≤ bus.ppu.addr.value) (h2 : bus.ppu.addr.value ≤ 0x2FFF) :
    ∃ b, bus.write 0x2007 value = Outcome.panicked b ∧
      b.ppu.addr.value = bus.ppu.addr.value ∧
      (bus.ppu.mirror_vram_addr bus.ppu.addr.value < 2048 →
        b.ppu.vram (bus.ppu.mirror_vram_addr bus.ppu.addr.value) = value) ∧
      (¬ bus.ppu.mirror_vram_addr bus.ppu.addr.value < 2048 →
        b.ppu.vram = bus.ppu.vram) := by
  simp only [Bus.write, Bus.write_rec]
  norm_num
  simp only [Ppu.write, AddrRegister.get]
  rw [if_neg (by omega), if_pos (by omega)]
  by_cases hidx : bus.ppu.mirror_vram_addr bus.ppu.addr.value < 2048
  · rw [if_pos hidx]
    refine ⟨_, rfl, rfl, fun _ => ?_, fun hcon => absurd hcon (by omega)⟩
    simp
  · rw [if_neg hidx]
    exact ⟨_, rfl, rfl, fun hcon => absurd hcon (by omega), fun _ => rfl⟩

/-- Witness for C10: a vertically mirrored PPU with the address register at
0x2345. -/
theorem ppu_nametable_write_never_completes_witness :
    (0x2000 ≤ c10wBus.ppu.addr.value) ∧
    ∃ b, c10wBus.write 0x2007 0x42 = Outcome.panicked b ∧
      b.ppu.addr.value = c10wBus.ppu.addr.value ∧
      (c10wBus.ppu.mirror_vram_addr c10wBus.ppu.addr.value < 2048 →
        b.ppu.vram (c10wBus.ppu.mirror_vram_addr c10wBus.ppu.addr.value) = 0x42) ∧
      (¬ c10wBus.ppu.mirror_vram_addr c10wBus.ppu.addr.value < 2048 →
        b.ppu.vram = c10wBus.ppu.vram) :=
  ⟨by decide, ppu_nametable_write_never_completes c10wBus 0x42 (by decide) (by decide)⟩

/-- Counterexample for C10 as stated: with four-screen mirroring and the
address register at 0x2800 the mirrored index is 0x800, outside the
2048-byte VRAM, so the write panics with the bus unchanged: nothing is
stored into VRAM before the failure. -/
theorem ppu_fourscreen_write_no_store_cex :
    (c10Bus.write 0x2007 0x42 = Outcome.panicked c10Bus) ∧
    c10Bus.ppu.mirror_vram_addr 0x2800 = 0x800 ∧
    c10Bus.ppu.vram 0x800 = 0 ∧ (0x42 : Nat) ≠ 0 :=
  ⟨rfl, rfl, rfl, by decide⟩

end Nessy

